import Mathlib

/-!  Shallow embedding of the openchat retrieval-and-query pipeline
(`src/backend/services`), together with theorems settling the claims about
it.  Python floats are modelled as exact rationals (`ℚ`), Python strings as
`String`, Python dicts with fixed key sets as structures, and the external
collaborators (JSON conversation store, OpenAI chat/embedding API, ChromaDB
vector search) as oracle functions supplied through an `Env` record; an
oracle may fail (`Except String`), modelling a raised exception.  Python
`set` values are modelled as first-occurrence-deduplicated lists, which
preserves every cardinality the code computes (iteration order of a Python
`set` is unspecified).  -/

namespace OpenChat

/-- Python regex `\w` word character (ASCII fragment; every pattern in the
source is ASCII). -/
def isWordChar (c : Char) : Bool := c.isAlpha || c.isDigit || c == '_'

/-- Python `str.split()` with no argument: split on whitespace runs and drop
empty pieces. -/
def splitWs (s : String) : List String :=
  (s.split Char.isWhitespace).filter (fun w => w ≠ "")

/-- Count occurrences of a character, Python `s.count(c)` for a single char. -/
def countChar (s : String) (c : Char) : Nat :=
  (s.data.filter (fun x => x == c)).length

/-- First-occurrence deduplication: the model of building a Python `set` from
a list.  Cardinalities agree with the Python set. -/
def dedupFirst : List String → List String
  | [] => []
  | x :: xs => x :: dedupFirst (xs.filter (fun y => y ≠ x))
termination_by l => l.length
decreasing_by
  simp only [List.length_cons]
  exact Nat.lt_succ_of_le (List.length_filter_le _ _)

/-- Python `needle in hay` for strings, on char lists. -/
def subListAux (needle : List Char) : List Char → Bool
  | [] => needle.isEmpty
  | c :: t => needle.isPrefixOf (c :: t) || subListAux needle t

/-- Python `needle in hay` substring test. -/
def containsSub (hay needle : String) : Bool :=
  subListAux needle.data hay.data

/-- Does the literal `pat` (word characters, possibly with interior spaces)
stand at the current position of `s` with a regex `\b` boundary on both
sides?  `prev` is the character just before the position (`none` at the start
of the string).  Every `\b`-delimited literal in the source starts and ends
with a word character, so the boundary tests reduce to the neighbours not
being word characters. -/
def boundedHere (prev : Option Char) (pat s : List Char) : Bool :=
  (match prev with
   | none => true
   | some c => !isWordChar c) &&
  pat.isPrefixOf s &&
  (match s.drop pat.length with
   | [] => true
   | c :: _ => !isWordChar c)

/-- Scan `s` for a `\b pat \b` occurrence (`re.search` of a word-bounded
literal). -/
def boundedSearchAux (pat : List Char) : Option Char → List Char → Bool
  | prev, [] => boundedHere prev pat []
  | prev, c :: t => boundedHere prev pat (c :: t) || boundedSearchAux pat (some c) t

/-- `re.search(r'\b' + w + r'\b', s)` as a Bool. -/
def wordSearch (w s : String) : Bool :=
  boundedSearchAux w.data none s.data

/-- Scan for `\b a \b .* \b b \b` where `b` ranges over the alternatives
`bs` (the source's patterns such as `r'\ball\b.*\b(documents|files|items)\b'`). -/
def seqSearchAux (a : List Char) (bs : List (List Char)) : Option Char → List Char → Bool
  | prev, [] =>
      boundedHere prev a [] && bs.any (fun b => boundedSearchAux b a.getLast? [])
  | prev, c :: t =>
      (boundedHere prev a (c :: t) &&
        bs.any (fun b => boundedSearchAux b a.getLast? ((c :: t).drop a.length)))
      || seqSearchAux a bs (some c) t

/-- After one whitespace character, zero or more whitespace then literal
`is` (the tail of the lookahead `(?!\s+is)`). -/
def spacesThenIs : List Char → Bool
  | [] => false
  | c :: t => (c == 'i' && t.head? == some 's') || (c.isWhitespace && spacesThenIs t)

/-- Does `\s+is` match at the start of `rest` (the body of the negative
lookahead in `r'\bthing\b(?!\s+is)'`)? -/
def lookSpacesIs (rest : List Char) : Bool :=
  match rest with
  | [] => false
  | c :: t => c.isWhitespace && spacesThenIs t

/-- Scan for `\b pat \b (?!\s+is)`. -/
def boundedNoIsSearchAux (pat : List Char) : Option Char → List Char → Bool
  | prev, [] => boundedHere prev pat [] && !lookSpacesIs []
  | prev, c :: t =>
      (boundedHere prev pat (c :: t) && !lookSpacesIs ((c :: t).drop pat.length))
      || boundedNoIsSearchAux pat (some c) t

/-- The shapes of regular expression the query-understanding and context
services use for boolean searches. -/
inductive RPat where
  | word (w : String)
  | seq (a b : String)
  | seqAlt (a : String) (bs : List String)
  | wordNoIs (w : String)
deriving Repr

/-- Evaluate `re.search(pattern, s)` as a Bool for the supported shapes. -/
def RPat.search (p : RPat) (s : String) : Bool :=
  match p with
  | .word w => wordSearch w s
  | .seq a b => seqSearchAux a.data [b.data] none s.data
  | .seqAlt a bs => seqSearchAux a.data (bs.map String.data) none s.data
  | .wordNoIs w => boundedNoIsSearchAux w.data none s.data

/-- Regex `\b` test just before position: no previous character or a
non-word one. -/
def boundaryOK (prev : Option Char) : Bool :=
  match prev with
  | none => true
  | some c => !isWordChar c

/-- Regex `\b` test after a match that ends in a word character: end of
string or a non-word character next. -/
def nonWordNext (s : List Char) : Bool :=
  match s with
  | [] => true
  | c :: _ => !isWordChar c

/-- Regex `\b` between a matched last character `last` and the rest of the
string: exactly one side is a word character. -/
def boundaryAfter (last : Char) (rest : List Char) : Bool :=
  match rest with
  | [] => isWordChar last
  | c :: _ => isWordChar last != isWordChar c

/-- Generic `re.findall` driver: `step` tries to match one occurrence at the
current position and reports the extracted string and the number of
characters the match consumed; on success scanning resumes after the match
(non-overlapping), otherwise at the next character.  `fuel` (initialised to
the string length) bounds the recursion. -/
def scanAll (step : Option Char → List Char → Option (String × Nat)) :
    Nat → Option Char → List Char → List String
  | 0, _, _ => []
  | _ + 1, _, [] => []
  | fuel + 1, prev, c :: t =>
      match step prev (c :: t) with
      | some (out, n) =>
          if n == 0 then out :: scanAll step fuel (some c) t
          else out :: scanAll step fuel (((c :: t).take n).getLast?) ((c :: t).drop n)
      | none => scanAll step fuel (some c) t

/-- Run a findall `step` over a string. -/
def runFindAll (step : Option Char → List Char → Option (String × Nat)) (s : String) :
    List String :=
  scanAll step s.data.length none s.data

/-- One match attempt of `\b\d+(?:\.\d+)?\b` (with the regex backtracking:
if the fractional part breaks the trailing boundary the integer part alone
still matches, its trailing boundary being the dot). -/
def stepNumber (prev : Option Char) (s : List Char) : Option (String × Nat) :=
  if !boundaryOK prev then none else
  let d1 := s.takeWhile Char.isDigit
  if d1.isEmpty then none else
  match s.drop d1.length with
  | '.' :: r2 =>
      let d2 := r2.takeWhile Char.isDigit
      if !d2.isEmpty && nonWordNext (r2.drop d2.length) then
        let n := d1.length + 1 + d2.length
        some (String.mk (s.take n), n)
      else
        some (String.mk d1, d1.length)
  | rest1 =>
      if nonWordNext rest1 then some (String.mk d1, d1.length) else none

/-- Parse one `[A-Z][a-z]+` segment, returning the characters consumed. -/
def capSegment (s : List Char) : Option Nat :=
  match s with
  | c :: t =>
      if c.isUpper then
        let ls := t.takeWhile Char.isLower
        if ls.isEmpty then none else some (1 + ls.length)
      else none
  | [] => none

/-- Offsets after each further `\s+[A-Z][a-z]+` segment (greedy star of the
capitalized-sequence pattern).  `s` is the remainder after offset `off`. -/
def capExtend : Nat → List Char → Nat → List Nat
  | 0, _, _ => []
  | fuel + 1, s, off =>
      let ws := s.takeWhile Char.isWhitespace
      if ws.isEmpty then []
      else match capSegment (s.drop ws.length) with
        | some k =>
            let off2 := off + ws.length + k
            off2 :: capExtend fuel (s.drop (ws.length + k)) off2
        | none => []

/-- One match attempt of `\b[A-Z][a-z]+(?:\s+[A-Z][a-z]+)*\b`: collect
segments greedily, then backtrack segments from the end until the trailing
boundary holds (the boundary after every non-final segment is whitespace, so
only the final segment can fail). -/
def stepCapitalized (prev : Option Char) (s : List Char) : Option (String × Nat) :=
  if !boundaryOK prev then none else
  match capSegment s with
  | none => none
  | some k1 =>
      let ends := k1 :: capExtend s.length (s.drop k1) k1
      match (ends.filter (fun e => nonWordNext (s.drop e))).getLast? with
      | some e => some (String.mk (s.take e), e)
      | none => none

/-- Is this one of the two quote characters of `["\']`? -/
def isQuoteChar (c : Char) : Bool := c == '\"' || c == '\''

/-- One match attempt of `["\']([^"\']+)["\']`; findall returns the captured
body. -/
def stepQuoted (_prev : Option Char) (s : List Char) : Option (String × Nat) :=
  match s with
  | c :: t =>
      if isQuoteChar c then
        let body := t.takeWhile (fun x => !isQuoteChar x)
        if body.isEmpty then none
        else match t.drop body.length with
          | d :: _ => if isQuoteChar d then some (String.mk body, body.length + 2) else none
          | [] => none
      else none
  | [] => none

/-- Date separator: dash or slash. -/
def isDateSep (c : Char) : Bool := c == '-' || c == '/'

/-- Try `\d{n1} sep \d{n2} sep \d{n3}\b` (sep being dash or slash) at the start of `s`, returning the
consumed length. -/
def tryDate1 (s : List Char) (n1 n2 n3 : Nat) : Option Nat :=
  let p1 := s.take n1
  if p1.length == n1 && p1.all Char.isDigit then
    match s.drop n1 with
    | c1 :: r1 =>
        if isDateSep c1 then
          let p2 := r1.take n2
          if p2.length == n2 && p2.all Char.isDigit then
            match r1.drop n2 with
            | c2 :: r2 =>
                if isDateSep c2 then
                  let p3 := r2.take n3
                  if p3.length == n3 && p3.all Char.isDigit && nonWordNext (r2.drop n3) then
                    some (n1 + 1 + n2 + 1 + n3)
                  else none
                else none
            | [] => none
          else none
        else none
    | [] => none
  else none

/-- The digit-count combinations of the two-part date pattern in the
order a backtracking engine tries them (greedy, rightmost group varies
fastest). -/
def dateTriples : List (Nat × Nat × Nat) :=
  [(2, 2, 4), (2, 2, 3), (2, 2, 2), (2, 1, 4), (2, 1, 3), (2, 1, 2),
   (1, 2, 4), (1, 2, 3), (1, 2, 2), (1, 1, 4), (1, 1, 3), (1, 1, 2)]

/-- One match attempt of the word-bounded date pattern `\d{1,2}`, separator, `\d{1,2}`, separator, `\d{2,4}`. -/
def stepDate (prev : Option Char) (s : List Char) : Option (String × Nat) :=
  if !boundaryOK prev then none else
  match dateTriples.findSome? (fun x => tryDate1 s x.1 x.2.1 x.2.2) with
  | some n => some (String.mk (s.take n), n)
  | none => none

/-- One match attempt of the date-or-four-digit-year alternation
(conversation-history date extraction). -/
def stepDateOr4 (prev : Option Char) (s : List Char) : Option (String × Nat) :=
  match stepDate prev s with
  | some r => some r
  | none =>
      if !boundaryOK prev then none else
      let p := s.take 4
      if p.length == 4 && p.all Char.isDigit && nonWordNext (s.drop 4) then
        some (String.mk p, 4)
      else none

/-- One match attempt of `\b[a-z]+[A-Z][a-zA-Z]*\b` (camelCase words). -/
def stepTech1 (prev : Option Char) (s : List Char) : Option (String × Nat) :=
  if !boundaryOK prev then none else
  let lows := s.takeWhile Char.isLower
  if lows.isEmpty then none else
  match s.drop lows.length with
  | c :: t =>
      if c.isUpper then
        let letters := t.takeWhile Char.isAlpha
        let n := lows.length + 1 + letters.length
        if nonWordNext (t.drop letters.length) then some (String.mk (s.take n), n) else none
      else none
  | [] => none

/-- One match attempt of `\b\w+[-_]\w+\b` (hyphen/underscore compounds); the
greedy first `\w+` backtracks from the longest prefix until the separator
fits. -/
def stepTech2 (prev : Option Char) (s : List Char) : Option (String × Nat) :=
  if !boundaryOK prev then none else
  let run := s.takeWhile isWordChar
  if run.isEmpty then none else
  ((List.range run.length).reverse.map (fun p => p + 1)).findSome? (fun p =>
    match s.drop p with
    | c :: rest =>
        if c == '-' || c == '_' then
          let second := rest.takeWhile isWordChar
          if second.isEmpty then none
          else
            let n := p + 1 + second.length
            some (String.mk (s.take n), n)
        else none
    | [] => none)

/-- One match attempt of
`\b[a-z]+[A-Z][a-zA-Z]*\b|\b\w+[-_]\w+\b` (technical terms). -/
def stepTechnical (prev : Option Char) (s : List Char) : Option (String × Nat) :=
  match stepTech1 prev s with
  | some r => some r
  | none => stepTech2 prev s

/-- One match attempt on a word-bounded alternation of literals (used for
counting `\b(?:document|file|pdf)\b` mentions). -/
def stepWordAlt (ws : List String) (prev : Option Char) (s : List Char) :
    Option (String × Nat) :=
  ws.findSome? (fun w =>
    if boundedHere prev w.data s then some (w, w.data.length) else none)

/-- Count of `re.findall` matches of a word-bounded alternation. -/
def countWordAlt (ws : List String) (s : String) : Nat :=
  (runFindAll (stepWordAlt ws) s).length

/-!  RetrievalService (`retrieval_service.py`).  A pipeline chunk dict is
modelled as `RChunk`; keys a dict may lack are fields with the default the
code's `.get(key, default)` supplies.  -/

/-- One retrieval-pipeline chunk (the dicts flowing through
`RetrievalService` and `QueryService._handle_document_query`). -/
structure RChunk where
  text : String := ""
  document_id : String := ""
  document_name : String := ""
  chunk_index : Nat := 0
  chunk_id : String := ""
  pages : List Nat := []
  similarity : ℚ := 0
  keyword_score : ℚ := 0
  semantic_score : ℚ := 0
  hybrid_score : ℚ := 0
  final_score : ℚ := 0
deriving DecidableEq, Repr

/-- Result of `RetrievalService.analyze_query_complexity`. -/
structure ComplexityAnalysis where
  complexity_level : String
  complexity_score : Nat
  word_count : Nat
  is_question : Bool
  is_comparison : Bool
  is_multipart : Bool
  is_specific : Bool
deriving DecidableEq, Repr

/-- `RetrievalService.analyze_query_complexity`. -/
def analyze_query_complexity (query : String) : ComplexityAnalysis :=
  let words := splitWs query
  let word_count := words.length
  let question_words := ["what", "when", "where", "who", "why", "how", "which"]
  let ql := query.toLower
  let is_question := question_words.any (fun qw => qw.isPrefixOf ql) || containsSub query "?"
  let comparison_words := ["compare", "difference", "versus", "vs", "better", "worse", "contrast"]
  let is_comparison := comparison_words.any (fun w => containsSub ql w)
  let has_and := containsSub ql " and "
  let has_or := containsSub ql " or "
  let has_multiple_questions := countChar query '?' > 1
  let is_multipart := has_and || has_or || has_multiple_questions
  let has_numbers := query.data.any Char.isDigit
  let has_quotes := containsSub query "\"" || containsSub query "'"
  let is_specific := has_numbers || has_quotes || word_count ≤ 5
  let complexity_score :=
    (if is_question then 1 else 0) + (if is_comparison then 2 else 0) +
    (if is_multipart then 2 else 0) + (if word_count > 15 then 1 else 0) +
    (if !is_specific then 1 else 0)
  let complexity_level :=
    if complexity_score ≥ 4 then "high"
    else if complexity_score ≥ 2 then "medium"
    else "low"
  ⟨complexity_level, complexity_score, word_count, is_question, is_comparison,
   is_multipart, is_specific⟩

/-- `RetrievalService.max_chunks`. -/
def max_chunks : Nat := 15

/-- Result of `RetrievalService.calculate_adaptive_parameters`. -/
structure RetrievalParams where
  top_k : Nat
  similarity_threshold : ℚ
  keyword_weight : ℚ
deriving DecidableEq, Repr

/-- `RetrievalService.calculate_adaptive_parameters`. -/
def calculate_adaptive_parameters (qa : ComplexityAnalysis) : RetrievalParams :=
  let base : Nat × ℚ × ℚ :=
    if qa.complexity_level == "high" then (max_chunks, 0.35, 0.3)
    else if qa.complexity_level == "medium" then (8, 0.4, 0.25)
    else (5, 0.5, 0.2)
  let top_k := base.1
  let similarity_threshold := base.2.1
  let keyword_weight := base.2.2
  let top_k := if qa.is_comparison then min (top_k + 3) max_chunks else top_k
  let top_k := if qa.is_multipart then min (top_k + 2) max_chunks else top_k
  let similarity_threshold :=
    if qa.is_specific then similarity_threshold + 0.1 else similarity_threshold
  ⟨top_k, similarity_threshold, keyword_weight⟩

/-- The stop-word set of `RetrievalService.keyword_search`. -/
def stop_words : List String :=
  ["a", "an", "and", "are", "as", "at", "be", "by", "for", "from",
   "has", "he", "in", "is", "it", "its", "of", "on", "that", "the",
   "to", "was", "will", "with", "what", "when", "where", "who", "why", "how"]

/-- `RetrievalService.keyword_search`: score every chunk against the query
words (exact, partial-substring and phrase matches). -/
def keyword_search (query : String) (chunks_with_metadata : List RChunk) : List RChunk :=
  let query_words := dedupFirst (splitWs query.toLower)
  let important_query_words := query_words.filter (fun w => !stop_words.contains w)
  chunks_with_metadata.map (fun chunk =>
    let text := chunk.text.toLower
    let chunk_words := dedupFirst (splitWs text)
    let exact_matches := (important_query_words.filter (fun w => chunk_words.contains w)).length
    let partial_matches :=
      (important_query_words.filter (fun qw => chunk_words.any (fun cw => containsSub cw qw))).length
    let phrase_matches := (query_words.filter (fun qw => containsSub text qw)).length
    let keyword_score : ℚ :=
      if important_query_words.length > 0 then
        ((exact_matches : ℚ) * 2 + (partial_matches : ℚ) + (phrase_matches : ℚ) * 0.5) /
          ((important_query_words.length : ℚ) * 3)
      else (phrase_matches : ℚ) / (max query_words.length 1 : ℚ)
    { chunk with keyword_score := min keyword_score 1.0 })

/-- Last-write-wins lookup, the model of the Python dict comprehension
`{c['chunk_id']: c['keyword_score'] for c in ...}` followed by `.get(k, d)`. -/
def lookupLast (m : List (String × ℚ)) (k : String) (d : ℚ) : ℚ :=
  match m.reverse.find? (fun p => p.1 == k) with
  | some p => p.2
  | none => d

/-- `RetrievalService.hybrid_search`: convex combination of semantic and
keyword scores for the semantic result set, plus injection of
keyword-only hits scoring at least 0.6. -/
def hybrid_search (semantic_results : List RChunk) (query : String)
    (all_chunks : List RChunk) (keyword_weight : ℚ := 0.25) : List RChunk :=
  let chunks_with_keyword_scores := keyword_search query all_chunks
  let keyword_score_map := chunks_with_keyword_scores.map (fun c => (c.chunk_id, c.keyword_score))
  let hybrid_results := semantic_results.map (fun chunk =>
    let semantic_score := chunk.similarity
    let keyword_score := lookupLast keyword_score_map chunk.chunk_id 0
    let hybrid_score := (1 - keyword_weight) * semantic_score + keyword_weight * keyword_score
    { chunk with keyword_score := keyword_score, semantic_score := semantic_score,
                 hybrid_score := hybrid_score, similarity := hybrid_score })
  let semantic_chunk_ids := semantic_results.map (fun c => c.chunk_id)
  let extras := (chunks_with_keyword_scores.filter (fun c =>
      !semantic_chunk_ids.contains c.chunk_id && c.keyword_score ≥ 0.6)).map (fun chunk =>
    let hybrid_score := keyword_weight * chunk.keyword_score
    { chunk with semantic_score := 0, hybrid_score := hybrid_score, similarity := hybrid_score })
  hybrid_results ++ extras

/-- The comparative vocabulary of `RetrievalService.rerank_results`. -/
def comparative_words : List String :=
  ["more", "less", "better", "worse", "than", "versus", "compared"]

/-- `RetrievalService.rerank_results`: additive boosts on the hybrid score,
clipping at 1.0, then a stable descending sort by final score (Python's
`list.sort(key=..., reverse=True)` is stable). -/
def rerank_results (results : List RChunk) (query_analysis : ComplexityAnalysis) : List RChunk :=
  let boosted := results.map (fun result =>
    let base_score := result.similarity
    let recency_boost : ℚ := 0
    let page_boost : ℚ := if result.pages ≠ [] && result.pages.contains 1 then 0.05 else 0
    let text_length := (splitWs result.text).length
    let length_boost : ℚ := if 50 ≤ text_length && text_length ≤ 300 then 0.03 else 0
    let length_boost : ℚ := if text_length < 20 then -0.1 else length_boost
    let length_boost : ℚ :=
      if query_analysis.is_comparison &&
         comparative_words.any (fun w => containsSub result.text.toLower w) then
        length_boost + 0.05
      else length_boost
    let final_score := min (base_score + recency_boost + page_boost + length_boost) 1.0
    { result with final_score := final_score, similarity := final_score })
  boosted.mergeSort (fun a b => decide (b.final_score ≤ a.final_score))

/-- Maximum of a list of rationals (`max(scores)` in Python, on a non-empty
list). -/
def maxListQ : List ℚ → ℚ
  | [] => 0
  | x :: xs => xs.foldl max x

/-- The dynamic threshold computed inside
`RetrievalService.filter_by_dynamic_threshold`. -/
def dynamicThreshold (results : List RChunk) (base_threshold : ℚ)
    (query_analysis : ComplexityAnalysis) : ℚ :=
  let scores := results.map (fun r => r.similarity)
  let max_score := if scores.isEmpty then 0 else maxListQ scores
  let avg_score := if scores.isEmpty then 0 else scores.sum / (scores.length : ℚ)
  let threshold :=
    if max_score > 0.8 then max base_threshold (avg_score * 0.8)
    else if max_score > 0.6 then base_threshold
    else min base_threshold (max_score * 0.7)
  if query_analysis.complexity_level == "high" then threshold * 0.9
  else if query_analysis.complexity_level == "low" && query_analysis.is_specific then
    threshold * 1.1
  else threshold

/-- `RetrievalService.filter_by_dynamic_threshold`: keep results at or above
the dynamic threshold, but fall back to the top 3 of the supplied list when
fewer than 3 survive and at least 3 were supplied. -/
def filter_by_dynamic_threshold (results : List RChunk) (base_threshold : ℚ)
    (query_analysis : ComplexityAnalysis) : List RChunk :=
  if results.isEmpty then results
  else
    let threshold := dynamicThreshold results base_threshold query_analysis
    let filtered_results := results.filter (fun r => threshold ≤ r.similarity)
    if filtered_results.length < 3 && results.length ≥ 3 then results.take 3
    else filtered_results

/-- Lookup in the `document_counts` dict (newest binding first). -/
def lookupCount (counts : List (String × Nat)) (k : String) : Nat :=
  match counts.find? (fun p => p.1 == k) with
  | some p => p.2
  | none => 0

/-- The loop of `RetrievalService.diversify_results`. -/
def diversifyGo (max_per_document : Nat) (counts : List (String × Nat)) :
    List RChunk → List RChunk
  | [] => []
  | result :: rest =>
      let doc_id := result.document_id
      let current_count := lookupCount counts doc_id
      if current_count < max_per_document then
        result :: diversifyGo max_per_document ((doc_id, current_count + 1) :: counts) rest
      else diversifyGo max_per_document counts rest

/-- `RetrievalService.diversify_results`: cap the number of chunks any one
document contributes, keeping input order. -/
def diversify_results (results : List RChunk) (max_per_document : Nat := 3) : List RChunk :=
  diversifyGo max_per_document [] results

/-!  QueryUnderstandingService (`query_understanding_service.py`).  The
wall-clock reading `datetime.now().isoformat()` that the source stores in
the analysis is passed in explicitly as the `now` argument.  -/

/-- One conversation message (`{'role': ..., 'content': ...}`). -/
structure Msg where
  role : String
  content : String
deriving DecidableEq, Repr

/-- The `intent_patterns` table, in the source's dict order. -/
def intent_patterns : List (String × List RPat) :=
  [("factual_lookup",
    [.word "what is", .word "what are", .word "who is", .word "where is",
     .word "when is", .word "define", .word "definition"]),
   ("procedural",
    [.word "how to", .word "how do", .word "how can", .word "steps",
     .word "process", .word "procedure", .word "instructions"]),
   ("comparison",
    [.word "compare", .word "versus", .word "vs", .word "difference",
     .word "better", .word "worse", .word "contrast", .word "alternative"]),
   ("analytical",
    [.word "why", .word "explain", .word "reason", .word "cause",
     .word "impact", .word "effect", .word "analyz", .word "evaluat"]),
   ("summarization",
    [.word "summariz", .word "overview", .word "main points",
     .seq "key" "points", .word "highlights", .word "in brief"]),
   ("list_enumeration",
    [.word "list", .seqAlt "all" ["documents", "files", "items"],
     .seqAlt "show me" ["documents", "files"], .word "what documents"]),
   ("specific_value",
    [.word "price", .word "cost", .word "date", .word "number",
     .word "version", .word "size", .word "quantity"]),
   ("opinion_recommendation",
    [.word "should i", .word "recommend", .word "suggestion",
     .word "advice", .word "best", .word "top"])]

/-- The `multi_doc_indicators` patterns. -/
def multi_doc_indicators : List RPat :=
  [.word "all documents", .word "every document", .word "across documents",
   .seqAlt "in all" ["files", "pdfs"], .word "throughout",
   .seq "between" "and", .word "compare", .word "across"]

/-- The `follow_up_indicators` patterns. -/
def follow_up_indicators : List RPat :=
  [.word "also", .word "additionally", .word "moreover", .word "furthermore",
   .seq "and" "about", .word "what about", .word "how about",
   .word "tell me more", .seq "can you" "more"]

/-- The `ambiguity_patterns` pronoun patterns. -/
def ambiguity_patterns : List RPat :=
  [.word "it", .word "that", .word "this", .word "they", .word "them",
   .word "those", .word "these"]

/-- The `vague_terms` patterns, paired with the text `re.search(...).group()`
returns on a match (the matched literal itself; the lookahead of
`r'\bthing\b(?!\s+is)'` consumes nothing). -/
def vague_terms : List (RPat × String) :=
  [(.word "something", "something"), (.word "somewhere", "somewhere"),
   (.word "someone", "someone"), (.wordNoIs "thing", "thing"),
   (.word "stuff", "stuff"), (.word "items", "items")]

/-- Result of `QueryUnderstandingService.classify_intent`. -/
structure IntentInfo where
  primary_intent : String
  all_intents : List String
  confidence : ℚ
  intent_scores : List (String × Nat)
deriving DecidableEq, Repr

/-- First key attaining the maximal score, in insertion order: Python's
`max(d, key=d.get)` over the dict built in table order. -/
def argmaxFirst (l : List (String × Nat)) : String :=
  match l with
  | [] => ""
  | x :: xs => (xs.foldl (fun best p => if p.2 > best.2 then p else best) x).1

/-- `QueryUnderstandingService.classify_intent`. -/
def classify_intent (query : String) : IntentInfo :=
  let query_lower := query.toLower
  let scored := intent_patterns.map (fun ip =>
    (ip.1, (ip.2.filter (fun p => p.search query_lower)).length))
  let confidence_scores := scored.filter (fun p => p.2 > 0)
  let intents := confidence_scores.map (fun p => p.1)
  if intents ≠ [] then
    let primary_intent := argmaxFirst confidence_scores
    let score := lookupCount confidence_scores primary_intent
    ⟨primary_intent, intents, min ((score : ℚ) / 3) 1.0, confidence_scores⟩
  else
    ⟨"general_inquiry", ["general_inquiry"], 0.5, []⟩

/-- Result of `QueryUnderstandingService.detect_multi_document_query`. -/
structure MultiDocInfo where
  is_multi_document : Bool
  explicit_multi : Bool
  is_comparison : Bool
  confidence : ℚ
deriving DecidableEq, Repr

/-- `QueryUnderstandingService.detect_multi_document_query`. -/
def detect_multi_document_query (query : String) (available_documents : Nat) : MultiDocInfo :=
  let query_lower := query.toLower
  let explicit_multi := multi_doc_indicators.any (fun p => p.search query_lower)
  let is_comparison := containsSub query_lower "compare" || containsSub query_lower "versus"
  let doc_mentions := countWordAlt ["document", "file", "pdf"] query_lower
  let has_multiple_refs := doc_mentions > 1 || containsSub query_lower " and "
  let requires_multiple :=
    explicit_multi || (is_comparison && available_documents > 1) || has_multiple_refs
  ⟨requires_multiple, explicit_multi, is_comparison,
   if explicit_multi then 0.9 else if is_comparison then 0.7 else 0.5⟩

/-- Result of `QueryUnderstandingService.detect_follow_up`.  The early
return on empty history carries only the first three keys; the unified
record gives the missing keys their falsy defaults. -/
structure FollowUpInfo where
  is_follow_up : Bool
  confidence : ℚ
  reference_type : Option String
  has_pronouns : Bool := false
  recent_context : List Msg := []
deriving DecidableEq, Repr

/-- `QueryUnderstandingService.detect_follow_up`. -/
def detect_follow_up (current_query : String) (conversation_history : List Msg) :
    FollowUpInfo :=
  if conversation_history.isEmpty then
    ⟨false, 0.0, none, false, []⟩
  else
    let query_lower := current_query.toLower
    let has_follow_up_words := follow_up_indicators.any (fun p => p.search query_lower)
    let has_pronouns := ambiguity_patterns.any (fun p => p.search query_lower)
    let is_short := (splitWs current_query).length < 5
    let question_words := ["what", "when", "where", "who", "why", "how", "which"]
    let starts_with_question := question_words.any (fun qw => qw.isPrefixOf query_lower)
    let is_incomplete := !starts_with_question && containsSub current_query "?"
    let is_follow_up := has_follow_up_words || (has_pronouns && is_short) || is_incomplete
    let reference_type : Option String :=
      if is_follow_up then
        if has_pronouns then some "pronoun_reference"
        else if has_follow_up_words then some "explicit_continuation"
        else if is_incomplete then some "implicit_continuation"
        else none
      else none
    let confidence : ℚ :=
      if has_follow_up_words then 0.9
      else if has_pronouns && is_short then 0.8
      else if is_incomplete then 0.6
      else 0.0
    let recent_context :=
      if conversation_history.length ≥ 3 then
        conversation_history.drop (conversation_history.length - 3)
      else conversation_history
    ⟨is_follow_up, confidence, reference_type, has_pronouns, recent_context⟩

/-- One entry of the `ambiguities` list of
`QueryUnderstandingService.detect_ambiguity`; absent dict keys default.
`kind` models the dict's `type` key. -/
structure Amb where
  kind : String
  severity : String
  terms : List String := []
  word_count : Nat := 0
  count : Nat := 0
deriving DecidableEq, Repr

/-- Result of `QueryUnderstandingService.detect_ambiguity`. -/
structure AmbiguityInfo where
  is_ambiguous : Bool
  needs_clarification : Bool
  ambiguities : List Amb
  severity : String
deriving DecidableEq, Repr

/-- `QueryUnderstandingService.detect_ambiguity`. -/
def detect_ambiguity (query : String) (conversation_history : List Msg) : AmbiguityInfo :=
  let query_lower := query.toLower
  let vague_found := (vague_terms.filter (fun p => p.1.search query_lower)).map (fun p => p.2)
  let amb1 : List Amb :=
    if vague_found ≠ [] then [{ kind := "vague_terms", severity := "medium", terms := vague_found }]
    else []
  let has_pronouns := ambiguity_patterns.any (fun p => p.search query_lower)
  let amb2 : List Amb :=
    if has_pronouns && conversation_history.length < 2 then
      [{ kind := "unclear_reference", severity := "high" }]
    else []
  let word_count := (splitWs query).length
  let amb3 : List Amb :=
    if word_count < 3 then
      [{ kind := "too_brief", severity := "medium", word_count := word_count }]
    else []
  let question_marks := countChar query '?'
  let amb4 : List Amb :=
    if question_marks > 1 then
      [{ kind := "multiple_questions", severity := "low", count := question_marks }]
    else []
  let has_and := containsSub query_lower " and "
  let has_or := containsSub query_lower " or "
  let amb5 : List Amb :=
    if has_and && has_or then [{ kind := "complex_logic", severity := "medium" }]
    else []
  let ambiguities := amb1 ++ amb2 ++ amb3 ++ amb4 ++ amb5
  let needs_clarification :=
    ambiguities.length > 0 && ambiguities.any (fun a => a.severity == "high")
  ⟨ambiguities.length > 0, needs_clarification, ambiguities,
   if needs_clarification then "high"
   else if ambiguities ≠ [] then "medium" else "low"⟩

/-- `QueryUnderstandingService.generate_clarification_prompt`: the first
ambiguity of a recognised type decides the prompt. -/
def generate_clarification_prompt (ambiguity_info : AmbiguityInfo)
    (intent_info : IntentInfo) (query : String) : Option String :=
  if !ambiguity_info.needs_clarification then none
  else
    match ambiguity_info.ambiguities.findSome? (fun ambiguity =>
      if ambiguity.kind == "unclear_reference" then
        some ("I notice you're referring to something, but I'm not sure what you're asking about. Could you please provide more details or rephrase your question?")
      else if ambiguity.kind == "vague_terms" then
        let terms := String.intercalate ", " ambiguity.terms
        some (s!"I'd like to help, but your question contains some vague terms ({terms}). Could you be more specific about what you're looking for?")
      else if ambiguity.kind == "too_brief" then
        some ("Your question is quite brief. Could you provide more context or details so I can give you a better answer?")
      else none) with
    | some p => some p
    | none =>
        some ("I want to make sure I understand your question correctly. Could you please provide more details or rephrase it?")

/-- First sentence of a string: Python `s.split('.')[0]`. -/
def firstSentence (s : String) : String :=
  match s.splitOn "." with
  | [] => s
  | x :: _ => x

/-- `QueryUnderstandingService.resolve_follow_up_context`. -/
def resolve_follow_up_context (current_query : String) (conversation_history : List Msg) :
    String :=
  if conversation_history.isEmpty then current_query
  else
    let recent_messages := conversation_history.drop (conversation_history.length - 3)
    let context_parts := recent_messages.filterMap (fun msg =>
      if msg.role == "user" then some (s!"Previously asked: {msg.content}")
      else if msg.role == "assistant" then
        let fs := if msg.content == "" then "" else firstSentence msg.content
        if fs ≠ "" then some (s!"Previously answered: {fs}") else none
      else none)
    let context_string := String.intercalate " | " context_parts
    s!"[Context: {context_string}] | Current question: {current_query}"

/-- Result of `QueryUnderstandingService.extract_entities`. -/
structure EntityInfo where
  numbers : List String
  potential_document_names : List String
  quoted_phrases : List String
  dates : List String
  technical_terms : List String
deriving DecidableEq, Repr

/-- `QueryUnderstandingService.extract_entities`. -/
def extract_entities (query : String) : EntityInfo :=
  { numbers := runFindAll stepNumber query
    potential_document_names := runFindAll stepCapitalized query
    quoted_phrases := runFindAll stepQuoted query
    dates := runFindAll stepDate query
    technical_terms := runFindAll stepTechnical query }

/-- Result of `QueryUnderstandingService.analyze_query` (a `QueryAnalysis`
record; `timestamp` holds the `datetime.now().isoformat()` reading). -/
structure QueryAnalysis where
  original_query : String
  enhanced_query : String
  intent : IntentInfo
  multi_document : MultiDocInfo
  follow_up : FollowUpInfo
  ambiguity : AmbiguityInfo
  entities : EntityInfo
  needs_clarification : Bool
  clarification_prompt : Option String
  timestamp : String
deriving DecidableEq, Repr

/-- `QueryUnderstandingService.analyze_query`; `now` is the wall-clock
reading the source obtains from `datetime.now().isoformat()`. -/
def analyze_query (query : String) (conversation_history : List Msg := [])
    (available_documents : Nat := 0) (now : String := "") : QueryAnalysis :=
  let intent_info := classify_intent query
  let multi_doc_info := detect_multi_document_query query available_documents
  let follow_up_info := detect_follow_up query conversation_history
  let ambiguity_info := detect_ambiguity query conversation_history
  let entities := extract_entities query
  let clarification_prompt := generate_clarification_prompt ambiguity_info intent_info query
  let enhanced_query :=
    if follow_up_info.is_follow_up && !ambiguity_info.needs_clarification then
      resolve_follow_up_context query conversation_history
    else query
  { original_query := query
    enhanced_query := enhanced_query
    intent := intent_info
    multi_document := multi_doc_info
    follow_up := follow_up_info
    ambiguity := ambiguity_info
    entities := entities
    needs_clarification := ambiguity_info.needs_clarification
    clarification_prompt := clarification_prompt
    timestamp := now }

/-- The metadata dict of `QueryUnderstandingService.get_query_metadata`. -/
structure QueryMetadata where
  primary_intent : String
  intent_confidence : ℚ
  is_multi_document : Bool
  is_follow_up : Bool
  is_ambiguous : Bool
  needs_clarification : Bool
  has_entities : Bool
  query_length : Nat
deriving DecidableEq, Repr

/-- `QueryUnderstandingService.get_query_metadata`. -/
def get_query_metadata (analysis : QueryAnalysis) : QueryMetadata :=
  { primary_intent := analysis.intent.primary_intent
    intent_confidence := analysis.intent.confidence
    is_multi_document := analysis.multi_document.is_multi_document
    is_follow_up := analysis.follow_up.is_follow_up
    is_ambiguous := analysis.ambiguity.is_ambiguous
    needs_clarification := analysis.needs_clarification
    has_entities := analysis.entities.numbers ≠ [] ||
      analysis.entities.potential_document_names ≠ [] ||
      analysis.entities.quoted_phrases ≠ [] || analysis.entities.dates ≠ [] ||
      analysis.entities.technical_terms ≠ []
    query_length := (splitWs analysis.original_query).length }

/-!  ResponseQualityService (`response_quality_service.py`): the fact-check
path and the composite confidence indicator.  -/

/-- Round half to even (Python's `round`), as an integer. -/
def roundHalfEvenQ (q : ℚ) : ℤ :=
  let f : ℤ := ⌊q⌋
  let r : ℚ := q - f
  if r < 1/2 then f
  else if r > 1/2 then f + 1
  else if f % 2 = 0 then f else f + 1

/-- Python `round(x, 2)`. -/
def round2 (q : ℚ) : ℚ :=
  (roundHalfEvenQ (q * 100) : ℚ) / 100

/-- Python `f-string` percent formatting with no decimals, `{x:.0%}`. -/
def pct0 (q : ℚ) : String :=
  toString (roundHalfEvenQ (q * 100)) ++ "%"

/-- One source citation dict, as built by `QueryService._extract_sources`. -/
structure Source where
  document_id : String := ""
  document_name : String := ""
  pages : List Nat := []
  page_display : String := ""
  similarity : ℚ := 0
  chunk_preview : String := ""
deriving DecidableEq, Repr

/-- Sentence terminator class `[.!?]` of `_extract_claims`. -/
def isSentEnd (c : Char) : Bool := c == '.' || c == '!' || c == '?'

/-- Python `re.split(r'[.!?]+', s)` on char lists: each maximal terminator
run is one separator. -/
def splitSentChars (cur : List Char) : List Char → List (List Char)
  | [] => [cur.reverse]
  | c :: t =>
      if isSentEnd c then cur.reverse :: splitSentChars [] (t.dropWhile isSentEnd)
      else splitSentChars (c :: cur) t
termination_by l => l.length
decreasing_by
  all_goals simp only [List.length_cons]
  all_goals first
    | exact Nat.lt_succ_of_le ((List.dropWhile_suffix _).sublist.length_le)
    | exact Nat.lt_succ_self _

/-- The copula/possession verbs of `_extract_claims`. -/
def specific_term_words : List String :=
  ["is", "are", "has", "have", "contains", "includes"]

/-- `ResponseQualityService._extract_claims`: candidate factual sentences of
the response (at least 10 characters, non-interrogative, containing a digit
or one of the specific-term verbs), capped at 5. -/
def _extract_claims (response : String) : List String :=
  let sentences := (splitSentChars [] response.data).map (fun l => String.mk l)
  let claims := sentences.filterMap (fun sentence =>
    let sentence := sentence.trim
    if sentence.length < 10 then none
    else if containsSub sentence "?" then none
    else
      let has_numbers := sentence.data.any Char.isDigit
      let has_specific_terms := specific_term_words.any (fun w => wordSearch w sentence.toLower)
      if has_numbers || has_specific_terms then some sentence else none)
  claims.take 5

/-- Result of `ResponseQualityService._verify_claim`. -/
structure VerifyResult where
  verified : Bool
  source : Option String
  confidence : ℚ
  reason : String
deriving DecidableEq, Repr

/-- `ResponseQualityService._verify_claim`: word-overlap ratio of the claim
against the combined source text, verified when it exceeds 0.3, attributing
the best-overlapping single source. -/
def _verify_claim (claim : String) (source_text : String) (sources : List Source) :
    VerifyResult :=
  let claim_lower := claim.toLower
  let source_lower := source_text.toLower
  let claim_words := dedupFirst (splitWs claim_lower)
  let source_words := dedupFirst (splitWs source_lower)
  let overlap := (claim_words.filter (fun w => source_words.contains w)).length
  let overlap_ratio : ℚ :=
    if claim_words.length ≠ 0 then (overlap : ℚ) / (claim_words.length : ℚ) else 0
  let best := sources.foldl (fun (acc : Option String × Nat) source =>
    let source_chunk_words := dedupFirst (splitWs source.chunk_preview.toLower)
    let chunk_overlap := (claim_words.filter (fun w => source_chunk_words.contains w)).length
    if chunk_overlap > acc.2 then (some source.document_name, chunk_overlap) else acc)
    (none, 0)
  if overlap_ratio > 0.3 then
    ⟨true, best.1, min overlap_ratio 1.0, "Supported by source material"⟩
  else
    ⟨false, none, 0.0, "Insufficient support in sources"⟩

/-- One verified claim entry of the fact-check result. -/
structure VerifiedClaim where
  claim : String
  source : Option String
  confidence : ℚ
deriving DecidableEq, Repr

/-- One unverified claim entry of the fact-check result. -/
structure UnverifiedClaim where
  claim : String
  reason : String
deriving DecidableEq, Repr

/-- Result of `ResponseQualityService.fact_check_response`. -/
structure FactCheck where
  verified_claims : List VerifiedClaim
  unverified_claims : List UnverifiedClaim
  confidence : ℚ
  issues : List String
deriving DecidableEq, Repr

/-- The claim loop of `fact_check_response`: partition the claims and
multiply the running confidence by 0.9 for each unverified one. -/
def factCheckGo (source_text : String) (sources : List Source) :
    List String → List VerifiedClaim × List UnverifiedClaim × ℚ
  | [] => ([], [], 1.0)
  | claim :: rest =>
      let verification := _verify_claim claim source_text sources
      let r := factCheckGo source_text sources rest
      if verification.verified then
        (⟨claim, verification.source, verification.confidence⟩ :: r.1, r.2.1, r.2.2)
      else
        (r.1, ⟨claim, verification.reason⟩ :: r.2.1, r.2.2 * 0.9)

/-- `ResponseQualityService.fact_check_response`. -/
def fact_check_response (response : String) (sources : List Source) (query : String) :
    FactCheck :=
  let claims := _extract_claims response
  let source_text_combined := String.intercalate " " (sources.map (fun s => s.chunk_preview))
  let r := factCheckGo source_text_combined sources claims
  let confidence :=
    if claims ≠ [] then
      r.2.2 * ((r.1.length : ℚ) / (claims.length : ℚ))
    else r.2.2
  ⟨r.1, r.2.1, confidence, []⟩

/-- The `confidence_thresholds` dict of `ResponseQualityService.__init__`. -/
structure ConfidenceThresholds where
  high : ℚ
  medium : ℚ
  low : ℚ
deriving DecidableEq, Repr

/-- `ResponseQualityService.confidence_thresholds`. -/
def confidence_thresholds : ConfidenceThresholds :=
  ⟨0.80, 0.60, 0.40⟩

/-- The `components` sub-dict of the confidence indicator. -/
structure ConfComponents where
  retrieval : ℚ
  validation : ℚ
  fact_check : ℚ
  sources : ℚ
deriving DecidableEq, Repr

/-- The `breakdown` sub-dict of the confidence indicator (display strings). -/
structure ConfBreakdown where
  retrieval : String
  validation : String
  fact_check : String
  sources : String
deriving DecidableEq, Repr

/-- Result of `ResponseQualityService.calculate_confidence_indicators`. -/
structure ConfidenceIndicators where
  overall_confidence : ℚ
  level : String
  color : String
  description : String
  components : ConfComponents
  breakdown : ConfBreakdown
deriving DecidableEq, Repr

/-- `ResponseQualityService.calculate_confidence_indicators`.  The
`validation_result` and `fact_check_result` dict arguments are modelled by
their one consulted entry (`.get('quality_score', 0.5)` resp.
`.get('confidence', 0.5)`), `none` when the key is absent. -/
def calculate_confidence_indicators (retrieval_confidence : ℚ)
    (validation_result : Option ℚ) (fact_check_result : Option ℚ)
    (source_count : Nat) : ConfidenceIndicators :=
  let retrieval_score := retrieval_confidence
  let validation_score := validation_result.getD 0.5
  let fact_check_score := fact_check_result.getD 0.5
  let source_score := min ((source_count : ℚ) / 5.0) 1.0
  let overall_confidence :=
    retrieval_score * 0.35 + validation_score * 0.25 +
    fact_check_score * 0.30 + source_score * 0.10
  let lvl : String × String × String :=
    if overall_confidence ≥ confidence_thresholds.high then
      ("high", "green", "High confidence - Well-supported by sources")
    else if overall_confidence ≥ confidence_thresholds.medium then
      ("medium", "yellow", "Medium confidence - Moderately supported")
    else if overall_confidence ≥ confidence_thresholds.low then
      ("low", "orange", "Low confidence - Limited source support")
    else
      ("very_low", "red", "Very low confidence - Insufficient evidence")
  { overall_confidence := overall_confidence
    level := lvl.1
    color := lvl.2.1
    description := lvl.2.2
    components := ⟨retrieval_score, validation_score, fact_check_score, source_score⟩
    breakdown := ⟨pct0 retrieval_score, pct0 validation_score, pct0 fact_check_score,
                  s!"{source_count} sources"⟩ }

/-!  `QueryService._extract_sources` (`query_service.py`): one citation per
distinct document, built from that document's first (highest-ranked) chunk. -/

/-- The `page_display` string for a pages list. -/
def pageDisplay (pages : List Nat) : String :=
  match pages with
  | [] => ""
  | [p] => s!"page {p}"
  | p :: rest =>
      let lastp := rest.getLastD p
      s!"pages {p}-{lastp}"

/-- Build one source citation from a chunk
(the body of the loop in `_extract_sources`). -/
def mkSourceFrom (chunk : RChunk) : Source :=
  { document_id := chunk.document_id
    document_name := chunk.document_name
    pages := chunk.pages
    page_display := pageDisplay chunk.pages
    similarity := round2 chunk.similarity
    chunk_preview :=
      if chunk.text.length > 200 then chunk.text.take 200 ++ "..." else chunk.text }

/-- The loop of `_extract_sources` with its `seen_docs` set. -/
def extractSourcesGo (seen : List String) : List RChunk → List Source
  | [] => []
  | chunk :: rest =>
      let doc_id := chunk.document_id
      if seen.contains doc_id then extractSourcesGo seen rest
      else mkSourceFrom chunk :: extractSourcesGo (doc_id :: seen) rest

/-- `QueryService._extract_sources`. -/
def _extract_sources (similar_chunks : List RChunk) : List Source :=
  extractSourcesGo [] similar_chunks

/-!  ConversationContextService (`conversation_context_service.py`).  -/

/-- Whitespace-or-colon class of the document-reference pattern. -/
def isWsColon (c : Char) : Bool := c.isWhitespace || c == ':'

/-- Character that ends the capture group of the document-reference pattern
(the negated class excludes quote, dot, comma, semicolon). -/
def capStop (c : Char) : Bool := c == '\"' || c == '.' || c == ',' || c == ';'

/-- One match attempt of the document-name pattern
`\b(?:document|file|report|paper|article)[\s:]+"?([^".,;]+)"?` with
IGNORECASE: keyword, then a greedy (backtracking) whitespace-or-colon run,
an optional opening quote, a non-empty capture, an optional closing quote;
findall returns the capture. -/
def stepDocRef (prev : Option Char) (s : List Char) : Option (String × Nat) :=
  if !boundaryOK prev then none else
  ["document", "file", "report", "paper", "article"].findSome? (fun kw =>
    let k := kw.data
    if (s.take k.length).map Char.toLower == k then
      let afterKw := s.drop k.length
      let ws := afterKw.takeWhile isWsColon
      if ws.isEmpty then none else
      ((List.range ws.length).reverse.map (fun j => j + 1)).findSome? (fun j =>
        let rest := afterKw.drop j
        match rest with
        | '\"' :: r2 =>
            let body := r2.takeWhile (fun c => !capStop c)
            if body.isEmpty then none
            else
              let closing := match r2.drop body.length with
                | '\"' :: _ => 1
                | _ => 0
              some (String.mk body, k.length + j + 1 + body.length + closing)
        | _ =>
            let body := rest.takeWhile (fun c => !capStop c)
            if body.isEmpty then none
            else
              let closing := match rest.drop body.length with
                | '\"' :: _ => 1
                | _ => 0
              some (String.mk body, k.length + j + body.length + closing))
    else none)

/-- The unit alternatives of the value pattern, in the order the regex tries
them (`GB|MB|KB|%|dollars?|\$|euros?|€`, the optional plural consumed
greedily), lower-cased for the IGNORECASE comparison. -/
def valueUnits : List String :=
  ["gb", "mb", "kb", "%", "dollars", "dollar", "$", "euros", "euro", "€"]

/-- Try the `\s*`-then-unit tail of the value pattern at offset `off` of `s`,
checking the trailing `\b` against the unit's last character. -/
def valueUnitPart (s : List Char) (off : Nat) : Option Nat :=
  let rest := s.drop off
  let ws := rest.takeWhile Char.isWhitespace
  let u := rest.drop ws.length
  valueUnits.findSome? (fun kw =>
    let k := kw.data
    if (u.take k.length).map Char.toLower == k then
      match k.getLast? with
      | some lastC =>
          if boundaryAfter lastC (u.drop k.length) then some (off + ws.length + k.length)
          else none
      | none => none
    else none)

/-- One match attempt of the value pattern
`\b\d+(?:\.\d+)?(?:\s*(?:GB|MB|KB|%|dollars?|\$|euros?|€))\b` with
IGNORECASE; the greedy fractional part is tried first and dropped if no unit
can follow it. -/
def stepValue (prev : Option Char) (s : List Char) : Option (String × Nat) :=
  if !boundaryOK prev then none else
  let d1 := s.takeWhile Char.isDigit
  if d1.isEmpty then none else
  let withFrac : Option Nat :=
    match s.drop d1.length with
    | '.' :: r2 =>
        let d2 := r2.takeWhile Char.isDigit
        if d2.isEmpty then none
        else valueUnitPart s (d1.length + 1 + d2.length)
    | _ => none
  match withFrac with
  | some n => some (String.mk (s.take n), n)
  | none =>
      match valueUnitPart s d1.length with
      | some n => some (String.mk (s.take n), n)
      | none => none

/-- `ConversationContextService.max_context_messages`. -/
def max_context_messages : Nat := 10

/-- `ConversationContextService.max_context_tokens`. -/
def max_context_tokens : Nat := 4000

/-- `ConversationContextService.summary_trigger_length`. -/
def summary_trigger_length : Nat := 15

/-- The `references` dict of `_detect_references`. -/
structure References where
  has_references : Bool
  pronouns : List String
  demonstratives : List String
  vague_references : List String
deriving DecidableEq, Repr

/-- The entity dict of `_extract_entities_from_history` (its `topics` key is
initialised empty and never filled by the source). -/
structure HistEntities where
  documents : List String
  topics : List String
  values : List String
  dates : List String
deriving DecidableEq, Repr

/-- The structured-context dict built by `build_structured_context`, with
the extra keys `get_relevant_context_for_query` and the orchestrator add
(`ai_summary`, `relevant_messages`, `context_string`). -/
structure StructuredContext where
  recent_messages : List Msg
  topics : List String
  entities : HistEntities
  questions_asked : List String
  references : References
  resolved_context : String
  context_summary : String
  message_count : Nat
  needs_summarization : Bool
  ai_summary : Option String := none
  relevant_messages : List Msg := []
  context_string : String := ""
deriving DecidableEq, Repr

/-- `ConversationContextService._extract_topics`.  The source collects into
a Python `set` and lists it; the model keeps first-occurrence order. -/
def _extract_topics (messages : List Msg) : List String :=
  let raw := messages.foldl (fun acc msg =>
    if msg.role ≠ "user" then acc
    else
      let content := msg.content.toLower
      let capitalized := runFindAll stepCapitalized msg.content
      let quoted := runFindAll stepQuoted content
      acc ++ capitalized ++ quoted) []
  (dedupFirst raw).take 10

/-- `ConversationContextService._extract_entities_from_history`. -/
def _extract_entities_from_history (messages : List Msg) : HistEntities :=
  let step := messages.foldl (fun (acc : List String × List String × List String) msg =>
    let content := msg.content
    let docs := runFindAll stepDocRef content
    let values := runFindAll stepValue content
    let dates := runFindAll stepDateOr4 content
    (acc.1 ++ docs, acc.2.1 ++ values, acc.2.2 ++ dates)) ([], [], [])
  { documents := (dedupFirst step.1).take 5
    topics := []
    values := (dedupFirst step.2.1).take 5
    dates := (dedupFirst step.2.2).take 5 }

/-- `ConversationContextService._extract_questions`. -/
def _extract_questions (messages : List Msg) : List String :=
  let questions := messages.filterMap (fun msg =>
    if msg.role == "user" && containsSub msg.content "?" then some msg.content else none)
  questions.drop (questions.length - 5)

/-- The pronoun list of `_detect_references`. -/
def reference_pronouns : List String :=
  ["it", "its", "they", "them", "their", "he", "she", "him", "her"]

/-- The demonstrative list of `_detect_references`. -/
def reference_demonstratives : List String :=
  ["this", "that", "these", "those", "the same", "such"]

/-- The vague-reference substrings of `_detect_references`. -/
def reference_vague : List String :=
  ["the document", "the file", "the previous", "earlier", "mentioned", "above"]

/-- `ConversationContextService._detect_references`. -/
def _detect_references (query : String) : References :=
  let query_lower := query.toLower
  let pronouns := reference_pronouns.filter (fun p => wordSearch p query_lower)
  let demonstratives := reference_demonstratives.filter (fun d => wordSearch d query_lower)
  let vague := reference_vague.filter (fun v => containsSub query_lower v)
  ⟨pronouns ≠ [] || demonstratives ≠ [] || vague ≠ [], pronouns, demonstratives, vague⟩

/-- `ConversationContextService._resolve_references`. -/
def _resolve_references (current_query : String) (messages : List Msg)
    (entities : HistEntities) (references : References) : String :=
  if !references.has_references || messages.length < 2 then current_query
  else
    let recent_context :=
      if messages.length ≥ 3 then messages.drop (messages.length - 3) else messages
    let context_parts := recent_context.filterMap (fun msg =>
      if msg.role == "user" then some (s!"User previously asked: {msg.content}")
      else if msg.role == "assistant" then
        let content := msg.content
        let first_sentence :=
          if containsSub content "." then firstSentence content else content.take 100
        some (s!"Assistant replied: {first_sentence}")
      else none)
    let context_info :=
      String.intercalate " | " (context_parts.drop (context_parts.length - 3))
    let resolved_query :=
      if (references.pronouns ≠ [] || references.demonstratives ≠ []) &&
         entities.documents ≠ [] then
        let latest_doc := entities.documents.getLastD ""
        s!"[Referring to: {latest_doc}] {current_query}"
      else current_query
    if references.vague_references ≠ [] then
      s!"[Previous context: {context_info}] Current question: {current_query}"
    else resolved_query

/-- `ConversationContextService._build_context_summary`. -/
def _build_context_summary (messages : List Msg) (topics : List String)
    (entities : HistEntities) : String :=
  if messages.isEmpty then ""
  else
    let user_msgs := (messages.filter (fun m => m.role == "user")).length
    let parts := [s!"{user_msgs} questions asked"]
    let parts :=
      if topics ≠ [] then
        let t := String.intercalate ", " (topics.take 3)
        parts ++ [s!"Topics discussed: {t}"]
      else parts
    let parts :=
      if entities.documents ≠ [] then
        let d := String.intercalate ", " (entities.documents.take 2)
        parts ++ [s!"Documents referenced: {d}"]
      else parts
    let parts :=
      if entities.values ≠ [] then
        let v := String.intercalate ", " (entities.values.take 2)
        parts ++ [s!"Values mentioned: {v}"]
      else parts
    String.intercalate " | " parts

/-- `ConversationContextService.build_structured_context`. -/
def build_structured_context (messages : List Msg) (current_query : String)
    (max_messages : Option Nat := none) : StructuredContext :=
  let max_messages := max_messages.getD max_context_messages
  let recent_messages :=
    if messages.length > max_messages then messages.drop (messages.length - max_messages)
    else messages
  let topics := _extract_topics recent_messages
  let entities := _extract_entities_from_history recent_messages
  let questions_asked := _extract_questions recent_messages
  let references := _detect_references current_query
  let resolved_context := _resolve_references current_query recent_messages entities references
  let context_summary := _build_context_summary recent_messages topics entities
  { recent_messages := recent_messages
    topics := topics
    entities := entities
    questions_asked := questions_asked
    references := references
    resolved_context := resolved_context
    context_summary := context_summary
    message_count := recent_messages.length
    needs_summarization := messages.length > summary_trigger_length }

/-- `ConversationContextService._estimate_tokens`: one token per four
characters, integer division. -/
def _estimate_tokens (text : String) : Nat := text.length / 4

/-- The backwards walk of `get_sliding_window_context`; the first argument
is the message list most-recent-first. -/
def slidingGo (max_tokens : Nat) : List Msg → Nat → List Msg
  | [], _ => []
  | msg :: rest, estimated =>
      let msg_tokens := _estimate_tokens msg.content
      if estimated + msg_tokens > max_tokens then []
      else slidingGo max_tokens rest (estimated + msg_tokens) ++ [msg]

/-- `ConversationContextService.get_sliding_window_context`. -/
def get_sliding_window_context (messages : List Msg) (current_query : String)
    (max_tokens : Option Nat := none) : List Msg :=
  let max_tokens := max_tokens.getD max_context_tokens
  slidingGo max_tokens messages.reverse (_estimate_tokens current_query)

/-- `ConversationContextService.prepare_context_for_llm`.  The entity dict
iterates in insertion order: documents, topics, values, dates. -/
def prepare_context_for_llm (structured_context : StructuredContext)
    (include_summary : Bool := true) : String :=
  let parts : List String := []
  let parts :=
    if include_summary && structured_context.context_summary ≠ "" then
      parts ++ [s!"Conversation Summary: {structured_context.context_summary}"]
    else parts
  let parts :=
    if structured_context.questions_asked ≠ [] then
      let qa := structured_context.questions_asked
      let rq := String.intercalate " | " (qa.drop (qa.length - 3))
      parts ++ [s!"Recent questions: {rq}"]
    else parts
  let e := structured_context.entities
  let entity_parts : List String :=
    (if e.documents ≠ [] then
      let v := String.intercalate ", " e.documents
      [s!"documents: {v}"] else []) ++
    (if e.topics ≠ [] then
      let v := String.intercalate ", " e.topics
      [s!"topics: {v}"] else []) ++
    (if e.values ≠ [] then
      let v := String.intercalate ", " e.values
      [s!"values: {v}"] else []) ++
    (if e.dates ≠ [] then
      let v := String.intercalate ", " e.dates
      [s!"dates: {v}"] else [])
  let parts :=
    if entity_parts ≠ [] then
      let ep := String.intercalate " | " entity_parts
      parts ++ [s!"Referenced: {ep}"]
    else parts
  let parts :=
    if structured_context.references.has_references then
      parts ++ [s!"Context resolution: {structured_context.resolved_context}"]
    else parts
  String.intercalate "\n\n" parts

/-- `ConversationContextService.get_relevant_context_for_query`. -/
def get_relevant_context_for_query (messages : List Msg) (current_query : String)
    (query_intent : Option String := none) : StructuredContext :=
  let structured_context := build_structured_context messages current_query
  let relevant_messages :=
    if structured_context.references.has_references then
      if messages.length > 5 then messages.drop (messages.length - 5) else messages
    else if query_intent == some "comparison" || query_intent == some "analytical" then
      get_sliding_window_context messages current_query
    else if query_intent == some "factual_lookup" || query_intent == some "specific_value" then
      if messages.length > 3 then messages.drop (messages.length - 3) else messages
    else
      if messages.length > 7 then messages.drop (messages.length - 7) else messages
  { structured_context with
    relevant_messages := relevant_messages
    context_string := prepare_context_for_llm structured_context }

/-- `ConversationContextService.enhance_query_with_context`. -/
def enhance_query_with_context (query : String) (context : StructuredContext) : String :=
  if !context.references.has_references then query
  else
    let enhanced_query := context.resolved_context
    let entity_hints : List String :=
      if context.entities.documents ≠ [] then
        let d := String.intercalate ", " (context.entities.documents.take 2)
        [s!"Documents: {d}"]
      else []
    if entity_hints ≠ [] then
      let h := String.intercalate " | " entity_hints
      s!"{enhanced_query} [Context: {h}]"
    else enhanced_query

/-- `ConversationContextService._simple_summary`. -/
def _simple_summary (messages : List Msg) : String :=
  let user_questions := (messages.filter (fun m => m.role == "user")).map (fun m => m.content)
  let key_points := (messages.filter (fun m => m.role == "assistant")).map (fun m =>
    if containsSub m.content "." then firstSentence m.content else m.content.take 150)
  let summary_parts :=
    (if user_questions ≠ [] then
      let uq := (user_questions.getLastD "").take 100
      [s!"User asked about: {uq}"] else []) ++
    (if key_points ≠ [] then
      let kp := (key_points.getLastD "").take 100
      [s!"Key information: {kp}"] else [])
  String.intercalate ". " summary_parts

/-!  PromptService (`prompt_service.py`).  The `datetime.now()` date string
of `create_contextual_prompt` is passed in as `nowDate`.  -/

/-- The `document_assistant` default prompt. -/
def documentAssistantPrompt : String :=
  "You are a knowledgeable AI assistant for this organization with access to comprehensive information.\n\nYour capabilities:\n- Answer questions using your knowledge base\n- Provide accurate, contextual responses based on available information\n- Handle both document-specific and general queries\n- Maintain a professional and helpful tone\n- Always respond in the same language as the user's question\n\nGuidelines:\n- When you have relevant information, provide comprehensive and helpful answers\n- If you don't have specific information about a topic, acknowledge this naturally without mentioning documents or knowledge bases\n- For general questions, provide helpful responses based on your training\n- Always be polite and professional\n- Match the user's language naturally - if they ask in French, respond in French; if in Spanish, respond in Spanish, etc.\n- If unsure, ask for clarification rather than guessing\n- Never mention \"documents\", \"knowledge base\", or technical implementation details to users\n- Maintain conversation context and refer back to previous questions when relevant"

/-- The `general_assistant` default prompt. -/
def generalAssistantPrompt : String :=
  "You are a helpful AI assistant with access to organizational knowledge.\n\nYour role:\n- Assist users with both specific organizational questions and general inquiries\n- Provide accurate, helpful information\n- Maintain a friendly and professional demeanor\n- Remember conversation context and build upon previous interactions\n- Always respond in the same language as the user's message\n\nCapabilities:\n- Answer questions using available organizational knowledge\n- Provide general knowledge and assistance\n- Help with organizational processes and information\n- Offer relevant suggestions and guidance\n- Communicate naturally in any language the user prefers\n- Maintain conversation flow and context"

/-- The `customer_support` default prompt. -/
def customerSupportPrompt : String :=
  "You are a professional customer support assistant for this organization.\n\nYour role and boundaries:\n- Act as a human customer service representative\n- ONLY answer questions related to this organization's products, services, and operations\n- DO NOT respond to questions outside the organization's industry or domain\n- Politely redirect off-topic queries back to business-related matters\n- Always respond in the same language as the customer's inquiry\n\nResponse guidelines:\n- Keep responses brief and specific to the question asked (2-4 sentences for simple questions)\n- Be direct and professional, not verbose\n- Use available knowledge to provide accurate, concise answers\n- If you don't have specific information, acknowledge it clearly and offer to escalate\n- Recognize when to escalate complex issues to human support\n\nWhat to escalate:\n- Complaints or dissatisfaction requiring management attention\n- Billing disputes or refund requests\n- Security or account access issues\n- Legal or compliance matters\n- Questions you cannot answer with confidence\n- Situations requiring account-specific information you don't have access to\n\nOff-topic handling:\n- If asked about topics unrelated to the organization, politely explain your role\n- Redirect the conversation to how you can help with organization-related matters\n- Never provide advice or information outside your domain\n\nNever mention:\n- Technical implementation details\n- Documents, databases, or knowledge bases\n- That you are an AI (act as a support representative)"

/-- The `knowledge_base` default prompt. -/
def knowledgeBasePrompt : String :=
  "You are an intelligent assistant with comprehensive organizational knowledge.\n\nYour purpose:\n- Provide comprehensive answers to user questions\n- Organize information in a clear, structured way\n- Help users discover related information\n- Maintain conversation context and continuity\n- Always respond in the same language as the user's query\n\nBest practices:\n- Structure responses with clear headings and bullet points\n- Suggest related topics that might be helpful\n- Summarize complex information in digestible formats\n- Remember what users have asked before in the conversation\n- Never reference technical implementation details\n- Communicate effectively in the user's preferred language"

/-- `PromptService.get_default_prompt`: the `default_prompts` dict with the
`document_assistant` fallback. -/
def get_default_prompt (prompt_type : String := "document_assistant") : String :=
  if prompt_type == "document_assistant" then documentAssistantPrompt
  else if prompt_type == "general_assistant" then generalAssistantPrompt
  else if prompt_type == "customer_support" then customerSupportPrompt
  else if prompt_type == "knowledge_base" then knowledgeBasePrompt
  else documentAssistantPrompt

/-- `PromptService.create_contextual_prompt`; `nowDate` is the
`datetime.now().strftime` date the source interpolates. -/
def create_contextual_prompt (base_prompt : String) (organization_name : String)
    (document_count : Nat) (context_type : String) (nowDate : String) : String :=
  let context_info :=
    s!"\nOrganization: {organization_name}\nAvailable Documents: {document_count}\nContext Type: {context_type}\nCurrent Date: {nowDate}\n"
  let context_addition :=
    if context_type == "document" && document_count > 0 then
      s!"\nYou have comprehensive knowledge about {organization_name} based on {document_count} information source(s). Use this knowledge to provide accurate, helpful responses. Focus on being informative and helpful without mentioning technical details about how you access information.\n"
    else if document_count == 0 then
      s!"\nYou can help users from {organization_name} with general questions and guidance. While you may not have specific organizational information available, you can still provide helpful general assistance.\n"
    else
      s!"\nYou are assisting users from {organization_name}. Provide helpful, accurate information while maintaining a professional tone.\n"
  s!"{base_prompt}\n\n{context_addition}\n\nContext Information:{context_info}"

/-!  QueryService (`query_service.py`), the orchestrator.  Its external
collaborators (conversation store, OpenAI chat/embedding API, ChromaDB) are
oracle functions in `Env`; each returns `Except String` — an `.error` models
the collaborator raising an exception.  Every collaborator call is recorded
in an event trace.  -/

/-- A document chunk as stored in a document dict: either the new dict
format (with text and pages) or a bare string (old format). -/
inductive PyChunk where
  | dictChunk (text : String) (pages : List Nat)
  | strChunk (s : String)
deriving DecidableEq, Repr

/-- Text of a chunk: `chunk.get("text", "")` for dicts, `str(chunk)`
otherwise. -/
def chunkText (chunk : PyChunk) : String :=
  match chunk with
  | .dictChunk text _ => text
  | .strChunk s => s

/-- Pages of a chunk: `chunk.get('pages', [])` for dicts, `[]` otherwise. -/
def chunkPages (chunk : PyChunk) : List Nat :=
  match chunk with
  | .dictChunk _ pages => pages
  | .strChunk _ => []

/-- One organization document. -/
structure Doc where
  id : String
  filename : String
  chunks : List PyChunk := []
deriving DecidableEq, Repr

/-- An organization dict as the orchestrator reads it. -/
structure Org where
  id : String
  name : String
  documents : List Doc := []
  prompt : Option String := none
deriving DecidableEq, Repr

/-- The user-context dict (only `user_id` is consulted). -/
structure UserCtx where
  user_id : Option String := none
deriving DecidableEq, Repr

/-- A conversation record (only its id is consulted). -/
structure Conv where
  id : String
deriving DecidableEq, Repr

/-- One collaborator call, recorded in the event trace. -/
inductive Ev where
  | getMessages (conversation_id : String)
  | createConversation (organization_id user_id : String)
  | getConversation (conversation_id : String)
  | addMessage (conversation_id role : String)
  | llm
  | getEmbedding
  | updateEmbeddings
  | vectorSearch
deriving DecidableEq, Repr

/-- Is the event a chat-completion (LLM) call? -/
def Ev.isLLM : Ev → Bool
  | .llm => true
  | _ => false

/-- Is the event a conversation-store message append? -/
def Ev.isAddMessage : Ev → Bool
  | .addMessage _ _ => true
  | _ => false

/-- The external collaborators of the orchestrator, plus the two wall-clock
readings the pipeline takes.  A collaborator returning `.error` models a
raised exception. -/
structure Env where
  getMessages : String → Nat → Except String (List Msg)
  createConversation : String → String → String → Except String Conv
  getConversation : String → Except String (Option Conv)
  addMessage : String → String → String → Except String Unit
  generateResponse : String → String → String → Bool → Except String String
  getSingleEmbedding : String → Except String (Option (List ℚ))
  updateDocumentEmbeddings : List Doc → String → Except String (List Doc)
  searchSimilarChunks : List ℚ → String → Nat → Except String (List RChunk)
  now : String
  nowDate : String

/-- The result dict of `QueryService.process_query` (keys some paths omit
are `Option` fields defaulting to `none`). -/
structure QueryResult where
  response : Option String
  conversation_id : Option String
  query_type : String
  sources : List Source
  confidence_score : ℚ
  needs_clarification : Option Bool := none
  query_analysis : Option QueryAnalysis := none
deriving DecidableEq, Repr

/-- Python `organization.get("prompt") or default`: an absent or empty
prompt string falls back to the default prompt. -/
def orgPrompt (organization : Org) (default_type : String) : String :=
  match organization.prompt with
  | some p => if p == "" then get_default_prompt default_type else p
  | none => get_default_prompt default_type

/-- Python `str(bool)` formatting. -/
def pyBool (b : Bool) : String := if b then "True" else "False"

/-- Python `f-string` fixed-point formatting with two decimals, `{x:.2f}`. -/
def fmt2 (q : ℚ) : String :=
  let n := roundHalfEvenQ (q * 100)
  let sign := if n < 0 then "-" else ""
  let m := n.natAbs
  let frac := m % 100
  let fracStr := if frac < 10 then "0" ++ toString frac else toString frac
  let intStr := toString (m / 100)
  s!"{sign}{intStr}.{fracStr}"

/-- `ConversationContextService.summarize_conversation` with the OpenAI
service supplied: one LLM call, any exception of which is swallowed in
favour of the extractive `_simple_summary` (the source's bare `except`). -/
def summarize_conversation (env : Env) (messages : List Msg) : String × List Ev :=
  if messages.length < 5 then ("", [])
  else
    let conversation_text := messages.map (fun msg => msg.role.toUpper ++ ": " ++ msg.content)
    let full_conversation := String.intercalate "\n\n" conversation_text
    let summary_prompt :=
      "Summarize this conversation in 2-3 sentences, focusing on:\n1. Main topics discussed\n2. Key information provided\n3. Current context\n\nConversation:\n" ++
      full_conversation ++ "\n\nSummary:"
    match env.generateResponse
        "You are a conversation summarizer. Create brief, informative summaries."
        summary_prompt "" false with
    | .ok summary => (summary, [.llm])
    | .error _ => (_simple_summary messages, [.llm])

/-- `QueryService._handle_general_query`. -/
def _handle_general_query (env : Env) (message : String) (organization : Org)
    (query_type : String) (user_context : Option UserCtx)
    (conversation_context : String) : Except String String × List Ev :=
  let base_prompt := orgPrompt organization "general_assistant"
  let system_prompt :=
    create_contextual_prompt base_prompt organization.name
      organization.documents.length "general" env.nowDate
  let system_prompt :=
    if conversation_context ≠ "" then
      system_prompt ++ "\n\nPrevious conversation context:\n" ++ conversation_context
    else system_prompt
  (env.generateResponse system_prompt message "" false, [.llm])

/-- `QueryService._fallback_keyword_search`: keyword-overlap scores over all
chunks of all documents, top 3 as context, one LLM call. -/
def _fallback_keyword_search (env : Env) (message : String) (organization : Org)
    (documents : List Doc) : Except String String × List Ev :=
  let query_words := dedupFirst (splitWs message.toLower)
  let relevant_chunks := documents.foldl (fun acc doc =>
    acc ++ doc.chunks.filterMap (fun chunk =>
      let chunk_text := chunkText chunk
      let chunk_words := dedupFirst (splitWs chunk_text.toLower)
      let score := (query_words.filter (fun w => chunk_words.contains w)).length
      if score > 0 then some (chunk_text, doc.filename, score) else none)) []
  let sorted := relevant_chunks.mergeSort (fun a b => decide (b.2.2 ≤ a.2.2))
  let top_chunks := sorted.take 3
  let context :=
    if top_chunks.isEmpty then "No relevant information found in the uploaded documents."
    else String.intercalate "\n\n---\n\n" (top_chunks.map (fun c =>
      let dn := c.2.1
      let tx := c.1
      s!"[From {dn}]\n{tx}"))
  let base_prompt := orgPrompt organization "document_assistant"
  let system_prompt :=
    create_contextual_prompt base_prompt organization.name documents.length
      "document" env.nowDate
  (env.generateResponse system_prompt message context true, [.llm])

/-- `QueryService._prepare_context_from_chunks`. -/
def _prepare_context_from_chunks (similar_chunks : List RChunk) : String :=
  String.intercalate "\n\n---\n\n" (similar_chunks.map (fun chunk =>
    let document_name := chunk.document_name
    let text := chunk.text
    let page_info :=
      match chunk.pages with
      | [] => ""
      | [p] => s!", Page {p}"
      | p :: rest =>
          let lastp := rest.getLastD p
          s!", Pages {p}-{lastp}"
    let rel := fmt2 chunk.similarity
    s!"[Source: {document_name}{page_info} - Relevance: {rel}]\n{text}"))

/-- The `all_chunks` list `_handle_document_query` prepares for hybrid
search. -/
def prepareAllChunks (documents : List Doc) : List RChunk :=
  documents.foldl (fun acc doc =>
    acc ++ doc.chunks.enum.map (fun p =>
      let i := p.1
      let chunk := p.2
      { text := chunkText chunk
        document_id := doc.id
        document_name := doc.filename
        chunk_index := i
        chunk_id := doc.id ++ "_" ++ toString i
        pages := chunkPages chunk : RChunk })) []

/-- The position-weighted confidence of `_handle_document_query`: weights
1/(i+1) over the first five final results. -/
def weightedConfidence (final_results : List RChunk) : ℚ :=
  if final_results ≠ [] then
    let weighted_scores := (final_results.take 5).enum.map (fun p =>
      p.2.similarity * (1 / (p.1 + 1 : ℚ)))
    let denom := ((List.range weighted_scores.length).map (fun i => (1 : ℚ) / (i + 1 : ℚ))).sum
    weighted_scores.sum / denom
  else 0

/-- The `try` body of `QueryService._handle_document_query`.  An `.error`
carries the exception text and the current value of the `documents` local
(rebound by `update_document_embeddings`), which the `except` handler passes
to the fallback search. -/
def handleDocumentQueryTry (env : Env) (message : String) (organization : Org)
    (documents : List Doc) (conversation_context : String)
    (query_analysis : Option QueryAnalysis) :
    Except (String × List Doc) (String × List Source × ℚ) × List Ev :=
  let qaIntent :=
    match query_analysis with
    | some qa => qa.intent.primary_intent
    | none => "general_inquiry"
  let qaIsFollowUp :=
    match query_analysis with
    | some qa => qa.follow_up.is_follow_up
    | none => false
  let complexity_analysis := analyze_query_complexity message
  let retrieval_params := calculate_adaptive_parameters complexity_analysis
  let organization_id := organization.id
  match env.updateDocumentEmbeddings documents organization_id with
  | .error e => (.error (e, documents), [.updateEmbeddings])
  | .ok documents2 =>
    let ev1 : List Ev := [.updateEmbeddings, .getEmbedding]
    match env.getSingleEmbedding message with
    | .error e => (.error (e, documents2), ev1)
    | .ok query_embedding =>
      let embFalsy :=
        match query_embedding with
        | none => true
        | some l => l.isEmpty
      if embFalsy then
        match _fallback_keyword_search env message organization documents2 with
        | (.ok response, ev2) => (.ok (response, [], 0.3), ev1 ++ ev2)
        | (.error e, ev2) => (.error (e, documents2), ev1 ++ ev2)
      else
        let ev2 := ev1 ++ [Ev.vectorSearch]
        match env.searchSimilarChunks (query_embedding.getD []) organization_id
            retrieval_params.top_k with
        | .error e => (.error (e, documents2), ev2)
        | .ok semantic_results =>
          if semantic_results.isEmpty then
            match _fallback_keyword_search env message organization documents2 with
            | (.ok response, ev3) => (.ok (response, [], 0.3), ev2 ++ ev3)
            | (.error e, ev3) => (.error (e, documents2), ev2 ++ ev3)
          else
            let all_chunks := prepareAllChunks documents2
            let hybrid_results :=
              hybrid_search semantic_results message all_chunks retrieval_params.keyword_weight
            let reranked_results := rerank_results hybrid_results complexity_analysis
            let filtered_results :=
              filter_by_dynamic_threshold reranked_results
                retrieval_params.similarity_threshold complexity_analysis
            let final_results := diversify_results filtered_results
            if final_results.isEmpty then
              match _fallback_keyword_search env message organization documents2 with
              | (.ok response, ev3) => (.ok (response, [], 0.3), ev2 ++ ev3)
              | (.error e, ev3) => (.error (e, documents2), ev2 ++ ev3)
            else
              let sources := _extract_sources final_results
              let confidence_score := weightedConfidence final_results
              let context := _prepare_context_from_chunks final_results
              let base_prompt := orgPrompt organization "document_assistant"
              let system_prompt :=
                create_contextual_prompt base_prompt organization.name documents2.length
                  "document" env.nowDate
              let system_prompt :=
                if conversation_context ≠ "" then
                  system_prompt ++ "\n\n=== Conversation Context ===\n" ++ conversation_context
                else system_prompt
              let nfinal := final_results.length
              let avgRel := fmt2 confidence_score
              let lvl := complexity_analysis.complexity_level
              let fup := pyBool qaIsFollowUp
              let retrieval_info :=
                s!"\n\n=== Retrieval Metadata ===\nFound {nfinal} relevant passages (avg relevance: {avgRel})\nQuery complexity: {lvl}\nIntent: {qaIntent}\nIs follow-up: {fup}"
              let system_prompt := system_prompt ++ retrieval_info
              let system_prompt :=
                if qaIsFollowUp then
                  system_prompt ++ "\n\nNote: This is a follow-up question. Use the conversation context to understand references like 'it', 'that', 'the document', etc."
                else system_prompt
              match env.generateResponse system_prompt message context true with
              | .ok response => (.ok (response, sources, confidence_score), ev2 ++ [Ev.llm])
              | .error e => (.error (e, documents2), ev2 ++ [Ev.llm])

/-- `QueryService._handle_document_query`: the `try` body with its `except`
handler, which answers through the fallback keyword search with confidence
0.3 and no sources (an exception in the fallback itself propagates). -/
def _handle_document_query (env : Env) (message : String) (organization : Org)
    (documents : List Doc) (user_context : Option UserCtx)
    (conversation_context : String) (query_analysis : Option QueryAnalysis) :
    Except String (String × List Source × ℚ) × List Ev :=
  match handleDocumentQueryTry env message organization documents conversation_context
      query_analysis with
  | (.ok r, ev) => (.ok r, ev)
  | (.error e, ev) =>
      match _fallback_keyword_search env message organization e.2 with
      | (.ok response, ev2) => (.ok (response, [], 0.3), ev ++ ev2)
      | (.error e2, ev2) => (.error e2, ev ++ ev2)

/-- The fixed apologetic answer of the orchestrator's exception handler. -/
def errorResponseText : String :=
  "Sorry, there was an error processing your question. Please try again."

/-- The `try` body of `QueryService.process_query`.  An `.error` carries the
exception text and the current value of the `conversation_id` local, which
the handler echoes into the error result. -/
def processQueryBody (env : Env) (message : String) (organization : Org)
    (user_context : Option UserCtx) (conversation_id : Option String) :
    Except (String × Option String) QueryResult × List Ev :=
  let org_id := organization.id
  let user_id := match user_context with | some uc => uc.user_id | none => none
  let histStep : Except String (List Msg) × List Ev :=
    match conversation_id with
    | some cid => (env.getMessages cid 20, [.getMessages cid])
    | none => (.ok [], [])
  match histStep with
  | (.error e, ev0) => (.error (e, conversation_id), ev0)
  | (.ok conversation_history, ev0) =>
    let documents := organization.documents
    let query_analysis := analyze_query message conversation_history documents.length env.now
    let conversation_context_data :=
      get_relevant_context_for_query conversation_history message
        (some query_analysis.intent.primary_intent)
    let sumStep : StructuredContext × List Ev :=
      if conversation_context_data.needs_summarization then
        let s := summarize_conversation env conversation_history
        ({ conversation_context_data with ai_summary := some s.1 }, s.2)
      else (conversation_context_data, [])
    let conversation_context_data := sumStep.1
    let ev1 := ev0 ++ sumStep.2
    if query_analysis.needs_clarification then
      (.ok { response := query_analysis.clarification_prompt
             conversation_id := conversation_id
             query_type := "clarification_needed"
             sources := []
             confidence_score := 0.0
             needs_clarification := some true
             query_analysis := some query_analysis }, ev1)
    else
      let title := if message.length > 50 then message.take 50 ++ "..." else message
      -- Python truthiness of ids: a present id is a non-empty string, so
      -- `not conversation_id and user_id` is isNone/isSome here.
      let convStep : Except String (Option String) × List Ev :=
        if conversation_id.isNone && user_id.isSome then
          match env.createConversation org_id (user_id.getD "") title with
          | .ok conversation => (.ok (some conversation.id), [.createConversation org_id (user_id.getD "")])
          | .error e => (.error e, [.createConversation org_id (user_id.getD "")])
        else if conversation_id.isSome then
          match env.getConversation (conversation_id.getD "") with
          | .ok _ => (.ok conversation_id, [.getConversation (conversation_id.getD "")])
          | .error e => (.error e, [.getConversation (conversation_id.getD "")])
        else (.ok none, [])
      match convStep with
      | (.error e, evc) => (.error (e, conversation_id), ev1 ++ evc)
      | (.ok conversation_id2, evc) =>
        let ev2 := ev1 ++ evc
        -- the user message is stored with metadata
        -- `get_query_metadata query_analysis`; the oracle records the call
        -- without the metadata payload
        let addUserStep : Except String Unit × List Ev :=
          match conversation_id2 with
          | some cid => (env.addMessage cid "user" message, [.addMessage cid "user"])
          | none => (.ok (), [])
        match addUserStep with
        | (.error e, eva) => (.error (e, conversation_id2), ev2 ++ eva)
        | (.ok _, eva) =>
          let ev3 := ev2 ++ eva
          let query_to_process := enhance_query_with_context message conversation_context_data
          let conversation_context :=
            prepare_context_for_llm conversation_context_data
              conversation_context_data.needs_summarization
          let primary_intent := query_analysis.intent.primary_intent
          let answerStep : Except String (String × List Source × ℚ) × List Ev :=
            if documents.isEmpty ||
               (primary_intent == "general_inquiry" || primary_intent == "opinion_recommendation") then
              match _handle_general_query env query_to_process organization primary_intent
                  user_context conversation_context with
              | (.ok response, evg) => (.ok (response, [], 0.7), evg)
              | (.error e, evg) => (.error e, evg)
            else
              _handle_document_query env query_to_process organization documents user_context
                conversation_context (some query_analysis)
          match answerStep with
          | (.error e, evb) => (.error (e, conversation_id2), ev3 ++ evb)
          | (.ok answer, evb) =>
            let ev4 := ev3 ++ evb
            let addAsstStep : Except String Unit × List Ev :=
              match conversation_id2 with
              | some cid => (env.addMessage cid "assistant" answer.1, [.addMessage cid "assistant"])
              | none => (.ok (), [])
            match addAsstStep with
            | (.error e, evd) => (.error (e, conversation_id2), ev4 ++ evd)
            | (.ok _, evd) =>
              (.ok { response := some answer.1
                     conversation_id := conversation_id2
                     query_type := primary_intent
                     sources := answer.2.1
                     confidence_score := answer.2.2
                     query_analysis := some query_analysis }, ev4 ++ evd)

/-- `QueryService.process_query`: the `try` body guarded by the catch-all
`except`, which converts any exception into the fixed apologetic result. -/
def process_query (env : Env) (message : String) (organization : Org)
    (user_context : Option UserCtx := none) (conversation_id : Option String := none) :
    QueryResult × List Ev :=
  match processQueryBody env message organization user_context conversation_id with
  | (.ok result, ev) => (result, ev)
  | (.error e, ev) =>
      ({ response := some errorResponseText
         conversation_id := e.2
         query_type := "error"
         sources := []
         confidence_score := 0.0 }, ev)

/-!  Theorems.  -/

section Theorems

/-- A convex combination with weight in [0,1] lies between the two
endpoints. -/
lemma convex_comb_between (a b w : ℚ) (h0 : 0 ≤ w) (h1 : w ≤ 1) :
    min a b ≤ (1 - w) * a + w * b ∧ (1 - w) * a + w * b ≤ max a b := by
  constructor <;> rcases le_total a b with h | h <;>
    simp [min_def, max_def, h] <;> nlinarith

/-- C2: `filter_by_dynamic_threshold` returns at least 3 results whenever at
least 3 were supplied; when fewer than 3 results pass the dynamic threshold
it returns the first 3 elements of the input unfiltered. -/
theorem filter_by_dynamic_threshold_keeps_three (results : List RChunk)
    (base_threshold : ℚ) (query_analysis : ComplexityAnalysis)
    (h3 : 3 ≤ results.length) :
    3 ≤ (filter_by_dynamic_threshold results base_threshold query_analysis).length ∧
    ((results.filter (fun r =>
        decide (dynamicThreshold results base_threshold query_analysis ≤ r.similarity))).length < 3 →
      filter_by_dynamic_threshold results base_threshold query_analysis = results.take 3) := by
  have hne : results.isEmpty = false := by
    cases results with
    | nil => simp at h3
    | cons a l => rfl
  unfold filter_by_dynamic_threshold
  rw [hne]
  simp only [Bool.false_eq_true, if_false]
  by_cases hf :
      (results.filter (fun r =>
        decide (dynamicThreshold results base_threshold query_analysis ≤ r.similarity))).length < 3
  · have hcond : ((results.filter (fun r =>
        decide (dynamicThreshold results base_threshold query_analysis ≤ r.similarity))).length < 3
        && results.length ≥ 3) = true := by
      simp [hf, h3]
    rw [if_pos hcond]
    refine ⟨?_, fun _ => rfl⟩
    rw [List.length_take]
    omega
  · have hcond : ((results.filter (fun r =>
        decide (dynamicThreshold results base_threshold query_analysis ≤ r.similarity))).length < 3
        && results.length ≥ 3) = false := by
      simp [hf]
    rw [if_neg (by simp [hcond])]
    exact ⟨by omega, fun h => absurd h hf⟩

/-- Concrete run of the C2 theorem: three low-scoring chunks survive through
the top-3 fallback. -/
theorem filter_by_dynamic_threshold_keeps_three_witness :
    3 ≤ (filter_by_dynamic_threshold
          [{ chunk_id := "a" }, { chunk_id := "b" }, { chunk_id := "c" }]
          0.5 (analyze_query_complexity "price of x")).length :=
  (filter_by_dynamic_threshold_keeps_three _ _ _ (by decide)).1

/-- The running per-document cap of `diversifyGo`: the output never holds
more chunks of document `d` than the remaining budget `m - counts(d)`. -/
lemma diversifyGo_count_le (m : Nat) (d : String) :
    ∀ (l : List RChunk) (counts : List (String × Nat)),
      ((diversifyGo m counts l).filter (fun c => c.document_id == d)).length ≤
        m - lookupCount counts d := by
  intro l
  induction l with
  | nil => intro counts; simp [diversifyGo]
  | cons r rest ih =>
      intro counts
      unfold diversifyGo
      by_cases hlt : lookupCount counts r.document_id < m
      · rw [if_pos hlt]
        by_cases hd : r.document_id == d
        · have hds : r.document_id = d := by simpa using hd
          subst hds
          have hcount : lookupCount
              ((r.document_id, lookupCount counts r.document_id + 1) :: counts) r.document_id
              = lookupCount counts r.document_id + 1 := by
            unfold lookupCount
            rw [List.find?_cons_of_pos _ (by simp)]
          have := ih ((r.document_id, lookupCount counts r.document_id + 1) :: counts)
          rw [hcount] at this
          simp only [List.filter_cons, hd, if_true, List.length_cons]
          omega
        · have hcount : lookupCount
              ((r.document_id, lookupCount counts r.document_id + 1) :: counts) d
              = lookupCount counts d := by
            unfold lookupCount
            rw [List.find?_cons_of_neg _ (by simpa using hd)]
          have := ih ((r.document_id, lookupCount counts r.document_id + 1) :: counts)
          rw [hcount] at this
          simpa [List.filter_cons, hd] using this
      · rw [if_neg hlt]
        exact ih counts

/-- `diversifyGo` only ever drops elements. -/
lemma diversifyGo_sublist (m : Nat) :
    ∀ (l : List RChunk) (counts : List (String × Nat)),
      (diversifyGo m counts l).Sublist l := by
  intro l
  induction l with
  | nil => intro counts; simp [diversifyGo]
  | cons r rest ih =>
      intro counts
      unfold diversifyGo
      by_cases hlt : lookupCount counts r.document_id < m
      · rw [if_pos hlt]
        exact List.Sublist.cons₂ r (ih _)
      · rw [if_neg hlt]
        exact List.Sublist.cons r (ih counts)

/-- C3: `diversify_results` keeps at most `max_per_document` chunks of any
one document and preserves the relative input order (its output is a
sublist of the input). -/
theorem diversify_results_cap_and_order (results : List RChunk)
    (max_per_document : Nat) (hpos : 0 < max_per_document) :
    (∀ d : String,
      ((diversify_results results max_per_document).filter
        (fun c => c.document_id == d)).length ≤ max_per_document) ∧
    (diversify_results results max_per_document).Sublist results := by
  constructor
  · intro d
    have := diversifyGo_count_le max_per_document d results []
    simpa [diversify_results, lookupCount] using this
  · exact diversifyGo_sublist max_per_document results []

/-- Concrete run of the C3 theorem: four chunks of one document are capped
at three, in order. -/
theorem diversify_results_cap_and_order_witness :
    ((diversify_results
        [{ chunk_id := "a", document_id := "d" }, { chunk_id := "b", document_id := "d" },
         { chunk_id := "c", document_id := "d" }, { chunk_id := "e", document_id := "d" }]
        3).filter (fun c => c.document_id == "d")).length ≤ 3 ∧
    (diversify_results
        [{ chunk_id := "a", document_id := "d" }, { chunk_id := "b", document_id := "d" },
         { chunk_id := "c", document_id := "d" }, { chunk_id := "e", document_id := "d" }]
        3).Sublist
      [{ chunk_id := "a", document_id := "d" }, { chunk_id := "b", document_id := "d" },
       { chunk_id := "c", document_id := "d" }, { chunk_id := "e", document_id := "d" }] :=
  ⟨(diversify_results_cap_and_order _ 3 (by decide)).1 "d",
   (diversify_results_cap_and_order _ 3 (by decide)).2⟩

/-- C4: every chunk of the semantic portion of `hybrid_search`'s output
(the first `semantic_results.length` entries) carries
`hybrid_score = (1-w)·semantic_score + w·keyword_score`, which for
`w ∈ [0,1]` lies between the two component scores. -/
theorem hybrid_search_convex (semantic_results : List RChunk) (query : String)
    (all_chunks : List RChunk) (keyword_weight : ℚ)
    (h0 : 0 ≤ keyword_weight) (h1 : keyword_weight ≤ 1) (c : RChunk)
    (hc : c ∈ (hybrid_search semantic_results query all_chunks keyword_weight).take
      semantic_results.length) :
    c.hybrid_score = (1 - keyword_weight) * c.semantic_score +
      keyword_weight * c.keyword_score ∧
    min c.semantic_score c.keyword_score ≤ c.hybrid_score ∧
    c.hybrid_score ≤ max c.semantic_score c.keyword_score := by
  rw [show (hybrid_search semantic_results query all_chunks keyword_weight).take
      semantic_results.length =
      semantic_results.map (fun chunk =>
        let semantic_score := chunk.similarity
        let keyword_score := lookupLast
          ((keyword_search query all_chunks).map (fun c => (c.chunk_id, c.keyword_score)))
          chunk.chunk_id 0
        let hybrid_score := (1 - keyword_weight) * semantic_score +
          keyword_weight * keyword_score
        { chunk with keyword_score := keyword_score, semantic_score := semantic_score,
                     hybrid_score := hybrid_score, similarity := hybrid_score }) from by
    unfold hybrid_search
    rw [show semantic_results.length = (semantic_results.map (fun chunk =>
        let semantic_score := chunk.similarity
        let keyword_score := lookupLast
          ((keyword_search query all_chunks).map (fun c => (c.chunk_id, c.keyword_score)))
          chunk.chunk_id 0
        let hybrid_score := (1 - keyword_weight) * semantic_score +
          keyword_weight * keyword_score
        { chunk with keyword_score := keyword_score, semantic_score := semantic_score,
                     hybrid_score := hybrid_score, similarity := hybrid_score })).length
      from (List.length_map _ _).symm]
    exact List.take_left _ _] at hc
  obtain ⟨chunk, _, rfl⟩ := List.mem_map.1 hc
  refine ⟨rfl, ?_, ?_⟩
  · exact (convex_comb_between _ _ _ h0 h1).1
  · exact (convex_comb_between _ _ _ h0 h1).2

/-- Concrete run of the C4 theorem at weight 1/4. -/
theorem hybrid_search_convex_witness :
    (0 : ℚ) ≤ 1/4 ∧
    ∀ c ∈ (hybrid_search [{ chunk_id := "a", similarity := 0.8, text := "alpha beta" }]
        "alpha" [{ chunk_id := "a", text := "alpha beta" }] (1/4)).take 1,
      c.hybrid_score = (1 - 1/4) * c.semantic_score + 1/4 * c.keyword_score ∧
      min c.semantic_score c.keyword_score ≤ c.hybrid_score ∧
      c.hybrid_score ≤ max c.semantic_score c.keyword_score :=
  ⟨by norm_num, fun c hc =>
    hybrid_search_convex [{ chunk_id := "a", similarity := 0.8, text := "alpha beta" }]
      "alpha" [{ chunk_id := "a", text := "alpha beta" }] (1/4)
      (by norm_num) (by norm_num) c hc⟩

/-- C9: the confidence-level boundaries are inclusive-lower: a composite of
exactly 0.80 is `high`, exactly 0.60 is `medium`, exactly 0.40 is `low`, and
anything below 0.40 is `very_low`. -/
theorem confidence_level_inclusive_bounds (retrieval_confidence : ℚ)
    (validation_result fact_check_result : Option ℚ) (source_count : Nat) :
    ((calculate_confidence_indicators retrieval_confidence validation_result
        fact_check_result source_count).overall_confidence = 0.8 →
      (calculate_confidence_indicators retrieval_confidence validation_result
        fact_check_result source_count).level = "high") ∧
    ((calculate_confidence_indicators retrieval_confidence validation_result
        fact_check_result source_count).overall_confidence = 0.6 →
      (calculate_confidence_indicators retrieval_confidence validation_result
        fact_check_result source_count).level = "medium") ∧
    ((calculate_confidence_indicators retrieval_confidence validation_result
        fact_check_result source_count).overall_confidence = 0.4 →
      (calculate_confidence_indicators retrieval_confidence validation_result
        fact_check_result source_count).level = "low") ∧
    ((calculate_confidence_indicators retrieval_confidence validation_result
        fact_check_result source_count).overall_confidence < 0.4 →
      (calculate_confidence_indicators retrieval_confidence validation_result
        fact_check_result source_count).level = "very_low") := by
  simp only [calculate_confidence_indicators, confidence_thresholds]
  refine ⟨fun h => ?_, fun h => ?_, fun h => ?_, fun h => ?_⟩ <;>
    split_ifs with h1 h2 h3 <;>
    first
      | rfl
      | (exfalso; rw [h] at h1; norm_num at h1; done)
      | (exfalso; rw [h] at h2; norm_num at h2; done)
      | (exfalso; rw [h] at h3; norm_num at h3; done)
      | (exfalso; linarith)

/-- Concrete runs of the C9 theorem at the three boundaries and below. -/
theorem confidence_level_inclusive_bounds_witness :
    (calculate_confidence_indicators 0.8 (some 0.8) (some 0.8) 4).level = "high" ∧
    (calculate_confidence_indicators 0.6 (some 0.6) (some 0.6) 3).level = "medium" ∧
    (calculate_confidence_indicators 0.4 (some 0.4) (some 0.4) 2).level = "low" ∧
    (calculate_confidence_indicators 0 (some 0) (some 0) 0).level = "very_low" :=
  ⟨(confidence_level_inclusive_bounds 0.8 (some 0.8) (some 0.8) 4).1
     (by norm_num [calculate_confidence_indicators, min_def]),
   (confidence_level_inclusive_bounds 0.6 (some 0.6) (some 0.6) 3).2.1
     (by norm_num [calculate_confidence_indicators, min_def]),
   (confidence_level_inclusive_bounds 0.4 (some 0.4) (some 0.4) 2).2.2.1
     (by norm_num [calculate_confidence_indicators, min_def]),
   (confidence_level_inclusive_bounds 0 (some 0) (some 0) 0).2.2.2
     (by norm_num [calculate_confidence_indicators, min_def])⟩

/-- No output of `extractSourcesGo` cites a document already in `seen`. -/
lemma extractSourcesGo_not_seen (l : List RChunk) :
    ∀ (seen : List String), ∀ s ∈ extractSourcesGo seen l,
      seen.contains s.document_id = false := by
  induction l with
  | nil => intro seen s hs; simp [extractSourcesGo] at hs
  | cons chunk rest ih =>
      intro seen s hs
      unfold extractSourcesGo at hs
      by_cases hcon : seen.contains chunk.document_id
      · rw [if_pos hcon] at hs
        exact ih seen s hs
      · rw [if_neg hcon] at hs
        rcases List.mem_cons.1 hs with hhead | htail
        · subst hhead
          exact Bool.eq_false_iff.2 hcon
        · have := ih (chunk.document_id :: seen) s htail
          simp only [List.contains_cons, Bool.or_eq_false_iff] at this
          exact this.2

/-- The citations of `extractSourcesGo` carry pairwise distinct document
ids. -/
lemma extractSourcesGo_pairwise (l : List RChunk) :
    ∀ (seen : List String),
      (extractSourcesGo seen l).Pairwise (fun a b => a.document_id ≠ b.document_id) := by
  induction l with
  | nil => intro seen; simp [extractSourcesGo]
  | cons chunk rest ih =>
      intro seen
      unfold extractSourcesGo
      by_cases hcon : seen.contains chunk.document_id
      · rw [if_pos hcon]
        exact ih seen
      · rw [if_neg hcon]
        refine List.Pairwise.cons ?_ (ih _)
        intro b hb
        have hns := extractSourcesGo_not_seen rest (chunk.document_id :: seen) b hb
        simp only [List.contains_cons, Bool.or_eq_false_iff] at hns
        have hne : b.document_id ≠ chunk.document_id := by simpa using hns.1
        exact fun hdeq => hne hdeq.symm

/-- Every citation of `extractSourcesGo` is built from the first chunk of
its document in the remaining input. -/
lemma extractSourcesGo_first (l : List RChunk) :
    ∀ (seen : List String), ∀ s ∈ extractSourcesGo seen l,
      ∃ c, l.find? (fun ch => ch.document_id == s.document_id) = some c ∧
        s = mkSourceFrom c := by
  induction l with
  | nil => intro seen s hs; simp [extractSourcesGo] at hs
  | cons chunk rest ih =>
      intro seen s hs
      unfold extractSourcesGo at hs
      by_cases hcon : seen.contains chunk.document_id
      · rw [if_pos hcon] at hs
        obtain ⟨c, hfind, hc⟩ := ih seen s hs
        refine ⟨c, ?_, hc⟩
        have hns := extractSourcesGo_not_seen rest seen s hs
        have hne : chunk.document_id ≠ s.document_id := by
          intro heq
          rw [heq, hns] at hcon
          exact absurd hcon (by simp)
        rw [List.find?_cons_of_neg _ (by simp [hne])]
        exact hfind
      · rw [if_neg hcon] at hs
        rcases List.mem_cons.1 hs with hhead | htail
        · subst hhead
          refine ⟨chunk, ?_, rfl⟩
          rw [List.find?_cons_of_pos _ (by simp [mkSourceFrom])]
        · obtain ⟨c, hfind, hc⟩ := ih (chunk.document_id :: seen) s htail
          refine ⟨c, ?_, hc⟩
          have hns := extractSourcesGo_not_seen rest (chunk.document_id :: seen) s htail
          simp only [List.contains_cons, Bool.or_eq_false_iff] at hns
          have hne : chunk.document_id ≠ s.document_id := by
            have := hns.1
            intro heq
            rw [heq] at this
            simp at this
          rw [List.find?_cons_of_neg _ (by simp [hne])]
          exact hfind

/-- C10: `_extract_sources` cites each document at most once (pairwise
distinct document ids) and every citation is built from the first chunk of
that document in the input order. -/
theorem extract_sources_unique_and_first (similar_chunks : List RChunk) :
    (_extract_sources similar_chunks).Pairwise (fun a b => a.document_id ≠ b.document_id) ∧
    ∀ s ∈ _extract_sources similar_chunks,
      ∃ c, similar_chunks.find? (fun ch => ch.document_id == s.document_id) = some c ∧
        s = mkSourceFrom c :=
  ⟨extractSourcesGo_pairwise similar_chunks [],
   extractSourcesGo_first similar_chunks []⟩

/-- First chunk of the concrete C10 run. -/
def c10a : RChunk := { document_id := "d1", document_name := "A", similarity := 0.9 }

/-- Second chunk of the concrete C10 run. -/
def c10b : RChunk := { document_id := "d2", document_name := "B", similarity := 0.5 }

/-- Third chunk of the concrete C10 run, repeating the first document. -/
def c10c : RChunk := { document_id := "d1", document_name := "A", similarity := 0.3 }

/-- Concrete run of the C10 theorem on a list with a repeated document. -/
theorem extract_sources_unique_and_first_witness :
    (_extract_sources [c10a, c10b, c10c]).Pairwise
      (fun a b => a.document_id ≠ b.document_id) ∧
    ∃ c, ([c10a, c10b, c10c].find?
        (fun ch => ch.document_id == (mkSourceFrom c10a).document_id)) = some c ∧
      mkSourceFrom c10a = mkSourceFrom c :=
  ⟨(extract_sources_unique_and_first _).1,
   (extract_sources_unique_and_first _).2 (mkSourceFrom c10a)
     (by
       rw [show _extract_sources [c10a, c10b, c10c] =
         [mkSourceFrom c10a, mkSourceFrom c10b] from rfl]
       exact List.mem_cons_self _ _)⟩

/-- The fact-check loop verifies or rejects every claim, and its running
confidence is 0.9 to the power of the rejected count. -/
lemma factCheckGo_counts (source_text : String) (sources : List Source) (l : List String) :
    (factCheckGo source_text sources l).1.length +
      (factCheckGo source_text sources l).2.1.length = l.length ∧
    (factCheckGo source_text sources l).2.2 =
      (9/10 : ℚ) ^ (factCheckGo source_text sources l).2.1.length := by
  induction l with
  | nil => exact ⟨rfl, by norm_num [factCheckGo]⟩
  | cons claim rest ih =>
      unfold factCheckGo
      have h1 := ih.1
      by_cases hv : (_verify_claim claim source_text sources).verified
      · rw [if_pos hv]
        refine ⟨?_, ih.2⟩
        simp only [List.length_cons]
        omega
      · rw [if_neg hv]
        refine ⟨?_, ?_⟩
        · simp only [List.length_cons]
          omega
        · simp only [List.length_cons, ih.2, pow_succ]
          norm_num

/-- C8 (amended): when at least one claim is extracted, the fact-check
confidence equals 0.9 to the power of the unverified-claim count times the
verified ratio — not the verified ratio alone. -/
theorem fact_check_confidence_formula (response : String) (sources : List Source)
    (query : String) (h : _extract_claims response ≠ []) :
    (fact_check_response response sources query).confidence =
      (9/10 : ℚ) ^ (fact_check_response response sources query).unverified_claims.length *
        ((fact_check_response response sources query).verified_claims.length : ℚ) /
        ((_extract_claims response).length : ℚ) := by
  unfold fact_check_response
  simp only []
  rw [if_pos h]
  rw [(factCheckGo_counts (String.intercalate " "
    (sources.map (fun s => s.chunk_preview))) sources (_extract_claims response)).2]
  rw [mul_div_assoc]

/-- The concrete fact-check run shared by the C8 amended witness and
counterexample: two claims, one verified. -/
def c8_response : String :=
  "The server has 16 GB memory installed today. The moon is made of green cheese entirely."

/-- The single source of the concrete C8 run. -/
def c8_source : Source :=
  { chunk_preview := "the server has 16 GB memory installed today" }

/-- Concrete run of the amended C8 theorem. -/
theorem fact_check_confidence_formula_witness :
    (fact_check_response c8_response [c8_source] "q").confidence =
      (9/10 : ℚ) ^ (fact_check_response c8_response [c8_source] "q").unverified_claims.length *
        ((fact_check_response c8_response [c8_source] "q").verified_claims.length : ℚ) /
        ((_extract_claims c8_response).length : ℚ) :=
  fact_check_confidence_formula c8_response [c8_source] "q" (by with_unfolding_all decide)

/-- C8 counterexample: a response with two extracted claims of which one is
verified has fact-check confidence 0.45, not the verified ratio 1/2. -/
theorem fact_check_confidence_not_ratio :
    (_extract_claims c8_response).length = 2 ∧
    (fact_check_response c8_response [c8_source] "q").verified_claims.length = 1 ∧
    (fact_check_response c8_response [c8_source] "q").confidence ≠
      ((fact_check_response c8_response [c8_source] "q").verified_claims.length : ℚ) /
        ((_extract_claims c8_response).length : ℚ) := by
  refine ⟨by with_unfolding_all decide, by with_unfolding_all decide, ?_⟩
  intro h
  have h1 : (fact_check_response c8_response [c8_source] "q").confidence = 9/20 := by
    with_unfolding_all decide
  have h2 : ((fact_check_response c8_response [c8_source] "q").verified_claims.length : ℚ) /
      ((_extract_claims c8_response).length : ℚ) = 1/2 := by
    norm_num [show (fact_check_response c8_response [c8_source] "q").verified_claims.length = 1
        from by with_unfolding_all decide,
      show (_extract_claims c8_response).length = 2 from by with_unfolding_all decide]
  rw [h1, h2] at h
  norm_num at h

/-- C5 counterexample: two calls of `analyze_query` on the same query,
history and document count but at different wall-clock instants return
different `QueryAnalysis` records (the `timestamp` field differs). -/
theorem analyze_query_not_time_invariant :
    analyze_query "what is x" [] 0 "2024-01-01T00:00:00" ≠
      analyze_query "what is x" [] 0 "2024-01-01T00:00:01" := by
  intro h
  have ht : ("2024-01-01T00:00:00" : String) = "2024-01-01T00:00:01" :=
    congrArg QueryAnalysis.timestamp h
  exact absurd ht (by decide)

/-- C5 (amended): `analyze_query` is a deterministic function of
`(query, conversation_history, available_documents)` in every field except
`timestamp`, which records the wall clock. -/
theorem analyze_query_deterministic_up_to_timestamp (query : String)
    (conversation_history : List Msg) (available_documents : Nat) (t1 t2 : String) :
    (analyze_query query conversation_history available_documents t1).original_query =
      (analyze_query query conversation_history available_documents t2).original_query ∧
    (analyze_query query conversation_history available_documents t1).enhanced_query =
      (analyze_query query conversation_history available_documents t2).enhanced_query ∧
    (analyze_query query conversation_history available_documents t1).intent =
      (analyze_query query conversation_history available_documents t2).intent ∧
    (analyze_query query conversation_history available_documents t1).multi_document =
      (analyze_query query conversation_history available_documents t2).multi_document ∧
    (analyze_query query conversation_history available_documents t1).follow_up =
      (analyze_query query conversation_history available_documents t2).follow_up ∧
    (analyze_query query conversation_history available_documents t1).ambiguity =
      (analyze_query query conversation_history available_documents t2).ambiguity ∧
    (analyze_query query conversation_history available_documents t1).entities =
      (analyze_query query conversation_history available_documents t2).entities ∧
    (analyze_query query conversation_history available_documents t1).needs_clarification =
      (analyze_query query conversation_history available_documents t2).needs_clarification ∧
    (analyze_query query conversation_history available_documents t1).clarification_prompt =
      (analyze_query query conversation_history available_documents t2).clarification_prompt :=
  ⟨rfl, rfl, rfl, rfl, rfl, rfl, rfl, rfl, rfl⟩

/-- C1: whenever the `try` body of `process_query` raises, the orchestrator
returns the fixed apologetic result — response the fixed message,
`query_type = "error"`, no sources, zero confidence — instead of
propagating the exception. -/
theorem process_query_error_boundary (env : Env) (message : String) (organization : Org)
    (user_context : Option UserCtx) (conversation_id : Option String)
    (e : String × Option String) (tr : List Ev)
    (h : processQueryBody env message organization user_context conversation_id =
      (.error e, tr)) :
    process_query env message organization user_context conversation_id =
      ({ response := some errorResponseText
         conversation_id := e.2
         query_type := "error"
         sources := []
         confidence_score := 0.0 }, tr) := by
  unfold process_query
  rw [h]

/-- The environment of the concrete C1 run: the conversation store raises on
`get_messages` (its JSON read failing), every other collaborator behaves. -/
def c1_env : Env :=
  { getMessages := fun _ _ => .error "database unavailable"
    createConversation := fun _ _ _ => .ok ⟨"conv1"⟩
    getConversation := fun cid => .ok (some ⟨cid⟩)
    addMessage := fun _ _ _ => .ok ()
    generateResponse := fun _ _ _ _ => .ok "answer"
    getSingleEmbedding := fun _ => .ok (some [1])
    searchSimilarChunks := fun _ _ _ => .ok []
    updateDocumentEmbeddings := fun docs _ => .ok docs
    now := "2026-01-01T00:00:00"
    nowDate := "2026-01-01" }

/-- The organization of the concrete C1 run. -/
def c1_org : Org := { id := "o1", name := "Acme" }

/-- Concrete run of the C1 theorem: a raising collaborator yields exactly
the fixed apologetic result. -/
theorem process_query_error_boundary_witness :
    process_query c1_env "hello" c1_org none (some "c9") =
      ({ response := some errorResponseText
         conversation_id := some "c9"
         query_type := "error"
         sources := []
         confidence_score := 0.0 }, [Ev.getMessages "c9"]) :=
  process_query_error_boundary c1_env "hello" c1_org none (some "c9")
    ("database unavailable", some "c9") [Ev.getMessages "c9"] rfl

/-- C7: when query-embedding generation fails (`None`) or the semantic
search returns an empty list, the document-query path answers through the
pure keyword fallback search with confidence 0.3 and an empty sources
list. -/
theorem document_query_semantic_fallback (env : Env) (message : String)
    (organization : Org) (documents docs2 : List Doc) (user_context : Option UserCtx)
    (conversation_context : String) (query_analysis : Option QueryAnalysis)
    (resp : String) (emb : List ℚ)
    (hupd : env.updateDocumentEmbeddings documents organization.id = .ok docs2)
    (hfb : (_fallback_keyword_search env message organization docs2).1 = .ok resp) :
    (env.getSingleEmbedding message = .ok none →
      (_handle_document_query env message organization documents user_context
        conversation_context query_analysis).1 = .ok (resp, [], 0.3)) ∧
    (env.getSingleEmbedding message = .ok (some emb) → emb ≠ [] →
      env.searchSimilarChunks emb organization.id
        (calculate_adaptive_parameters (analyze_query_complexity message)).top_k = .ok [] →
      (_handle_document_query env message organization documents user_context
        conversation_context query_analysis).1 = .ok (resp, [], 0.3)) := by
  rcases hfbp : _fallback_keyword_search env message organization docs2 with ⟨r, evfb⟩
  rw [hfbp] at hfb
  simp only at hfb
  subst hfb
  constructor
  · intro hemb
    simp only [_handle_document_query, handleDocumentQueryTry, hupd, hemb, hfbp]
    simp
  · intro hemb hne hsearch
    have hnemp : emb.isEmpty = false := by
      cases emb with
      | nil => exact absurd rfl hne
      | cons a l => rfl
    simp only [_handle_document_query, handleDocumentQueryTry, hupd, hemb, hnemp,
      Option.getD, hsearch, hfbp]
    simp

/-- The environment of the concrete C7 embedding-failure run. -/
def c7_envA : Env :=
  { c1_env with
    getMessages := fun _ _ => .ok []
    generateResponse := fun _ _ _ _ => .ok "fallback answer"
    getSingleEmbedding := fun _ => .ok none }

/-- The environment of the concrete C7 empty-semantic-results run. -/
def c7_envB : Env :=
  { c7_envA with getSingleEmbedding := fun _ => .ok (some [1]) }

/-- The document of the concrete C7 runs. -/
def c7_doc : Doc :=
  { id := "d1", filename := "a.pdf",
    chunks := [.dictChunk "the refund policy is thirty days" [1]] }

/-- The organization of the concrete C7 runs. -/
def c7_org : Org :=
  { id := "o1", name := "Acme", documents := [c7_doc] }

/-- Concrete runs of the C7 theorem: both degraded paths answer with the
fallback response, no sources, confidence 0.3. -/
theorem document_query_semantic_fallback_witness :
    (_handle_document_query c7_envA "what is the policy" c7_org c7_org.documents none
      "" none).1 = .ok ("fallback answer", [], 0.3) ∧
    (_handle_document_query c7_envB "what is the policy" c7_org c7_org.documents none
      "" none).1 = .ok ("fallback answer", [], 0.3) :=
  ⟨(document_query_semantic_fallback c7_envA "what is the policy" c7_org c7_org.documents
      c7_org.documents none "" none "fallback answer" [] rfl rfl).1 rfl,
   (document_query_semantic_fallback c7_envB "what is the policy" c7_org c7_org.documents
      c7_org.documents none "" none "fallback answer" [1] rfl rfl).2 rfl
     (by decide) rfl⟩

/-- Characterisation of `detect_ambiguity`'s clarification flag: the only
high-severity finding is `unclear_reference`, raised exactly when the query
holds a pronoun and the history has fewer than 2 messages. -/
lemma detect_ambiguity_needs_iff (query : String) (conversation_history : List Msg) :
    (detect_ambiguity query conversation_history).needs_clarification =
      (ambiguity_patterns.any (fun p => p.search query.toLower) &&
        decide (conversation_history.length < 2)) := by
  simp only [detect_ambiguity]
  split_ifs <;> simp_all [List.any_append] <;> assumption

/-- A query flagged for clarification always has fewer than 2 prior
messages. -/
lemma needs_clarification_hist_lt_two (query : String) (conversation_history : List Msg)
    (h : (detect_ambiguity query conversation_history).needs_clarification = true) :
    conversation_history.length < 2 := by
  rw [detect_ambiguity_needs_iff, Bool.and_eq_true] at h
  simpa using h.2

/-- The summarization trigger of the structured context is exactly a
history longer than `summary_trigger_length` messages. -/
lemma get_relevant_needs_sum (messages : List Msg) (current_query : String)
    (query_intent : Option String) :
    (get_relevant_context_for_query messages current_query query_intent).needs_summarization =
      decide (messages.length > summary_trigger_length) := rfl

/-- C6: when query analysis flags the query for clarification,
`process_query` returns the generated clarification prompt with zero
confidence and no sources, and on this path makes no LLM call and appends
no message to the conversation store. -/
theorem clarification_short_circuit (env : Env) (message : String) (organization : Org)
    (user_context : Option UserCtx) (conversation_id : Option String) (hist : List Msg)
    (hhist : match conversation_id with
             | some cid => env.getMessages cid 20 = .ok hist
             | none => hist = [])
    (hclar : (analyze_query message hist organization.documents.length
        env.now).needs_clarification = true) :
    (process_query env message organization user_context conversation_id).1 =
      { response := (analyze_query message hist organization.documents.length
          env.now).clarification_prompt
        conversation_id := conversation_id
        query_type := "clarification_needed"
        sources := []
        confidence_score := 0.0
        needs_clarification := some true
        query_analysis := some (analyze_query message hist organization.documents.length
          env.now) } ∧
    ((process_query env message organization user_context conversation_id).2.all
      (fun e => !(e.isLLM || e.isAddMessage))) = true := by
  have hlen : hist.length < 2 := needs_clarification_hist_lt_two message hist hclar
  have hsum : (get_relevant_context_for_query hist message
      (some (analyze_query message hist organization.documents.length
        env.now).intent.primary_intent)).needs_summarization = false := by
    rw [get_relevant_needs_sum]
    simp only [summary_trigger_length, decide_eq_false_iff_not]
    omega
  cases conversation_id with
  | none =>
      subst hhist
      simp only [process_query, processQueryBody, hsum, hclar]
      simp
  | some cid =>
      simp only [process_query, processQueryBody, hhist, hsum, hclar]
      simp [Ev.isLLM, Ev.isAddMessage]

/-- The environment of the concrete C6 run: an empty stored conversation,
all collaborators healthy. -/
def c6_env : Env :=
  { getMessages := fun _ _ => .ok []
    createConversation := fun _ _ _ => .ok ⟨"conv1"⟩
    getConversation := fun cid => .ok (some ⟨cid⟩)
    addMessage := fun _ _ _ => .ok ()
    generateResponse := fun _ _ _ _ => .ok "answer"
    getSingleEmbedding := fun _ => .ok (some [1])
    searchSimilarChunks := fun _ _ _ => .ok []
    updateDocumentEmbeddings := fun docs _ => .ok docs
    now := "2026-01-01T00:00:00"
    nowDate := "2026-01-01" }

/-- The organization of the concrete C6 run. -/
def c6_org : Org := { id := "o1", name := "Acme" }

/-- Concrete run of the C6 theorem: the bare pronoun query `it` with no
history is answered by the clarification prompt, with no LLM call and no
message appended. -/
theorem clarification_short_circuit_witness :
    (process_query c6_env "it" c6_org none (some "c9")).1 =
      { response := (analyze_query "it" [] c6_org.documents.length
          c6_env.now).clarification_prompt
        conversation_id := some "c9"
        query_type := "clarification_needed"
        sources := []
        confidence_score := 0.0
        needs_clarification := some true
        query_analysis := some (analyze_query "it" [] c6_org.documents.length c6_env.now) } ∧
    ((process_query c6_env "it" c6_org none (some "c9")).2.all
      (fun e => !(e.isLLM || e.isAddMessage))) = true :=
  clarification_short_circuit c6_env "it" c6_org none (some "c9") [] rfl
    (by with_unfolding_all decide)

end Theorems

end OpenChat
